import Mathlib

/-!
Verification development for the fingerprint synthesis engine of
`capture-real-fingerprint.js` (browser-fingerprint-capture repository).

The JavaScript engine is shallowly embedded: JS numbers are modelled as `ℚ`
(the engine only performs comparisons, sums, floors and small-integer
arithmetic on them), 32-bit unsigned integers as `ℕ` reduced modulo `2^32`,
JS `undefined`/absent object fields as `Option`, and the two sources of
nondeterminism — the `Math.random`/seeded PRNG stream and the
`crypto.randomBytes` entropy pool — as explicit function parameters.
Functions that consume the random stream take the stream `rand : ℕ → ℚ`
together with the index of the next unconsumed draw and return the value
paired with the updated index, mirroring the JS call order exactly.
-/

/-! ### 32-bit arithmetic helpers (JS `>>> 0`, `Math.imul`, bit ops) -/

/-- Reduction of a natural number to 32 bits, the bit pattern produced by the
JS `>>> 0` coercion on an integral value. -/
def mask32 (n : ℕ) : ℕ := n % 4294967296

/-- `Math.imul`: 32-bit multiplication; on unsigned bit patterns the result
pattern is the product modulo `2^32`. -/
def imul32 (a b : ℕ) : ℕ := mask32 (a * b)

/-- JS `ToUint32` on an integer (`seed >>> 0` for numeric seeds). -/
def toUint32 (n : ℤ) : ℕ := (n % 4294967296).toNat

/-! ### The deterministic PRNG (`createPRNG`, mulberry32 core)

In the source, each call first adds `0x6d2b79f5` to the internal state and
then mixes the state into a 32-bit output word that is divided by `2^32`.
The state itself is kept unreduced (JS adds floats); every use of the state
inside the mixing rounds goes through a 32-bit coercion, which `mask32`
makes explicit. -/

/-- First mixing round: `let t = Math.imul(hash ^ (hash >>> 15), 1 | hash)`
applied to the 32-bit pattern of the state. -/
def mulberryT1 (h : ℕ) : ℕ := imul32 (h ^^^ (h >>> 15)) (h ||| 1)

/-- Second mixing round: `t ^= t + Math.imul(t ^ (t >>> 7), 61 | t)`; the JS
addition of two int32 values has bit pattern equal to the sum of the
unsigned patterns modulo `2^32`. -/
def mulberryT2 (t1 : ℕ) : ℕ :=
  t1 ^^^ mask32 (t1 + imul32 (t1 ^^^ (t1 >>> 7)) (t1 ||| 61))

/-- One output word of the mulberry32 mixer for a given (already advanced)
internal state: `(t ^ (t >>> 14)) >>> 0`. -/
def mulberryOutput (state : ℕ) : ℕ :=
  mulberryT2 (mulberryT1 (mask32 state)) ^^^ (mulberryT2 (mulberryT1 (mask32 state)) >>> 14)

/-- The state advance performed at the start of every PRNG call
(`hash += 0x6d2b79f5`). -/
def mulberryAdvance (s : ℕ) : ℕ := s + 1831565813

/-- `n`-th (0-based) raw 32-bit output of the PRNG started from state `s0`. -/
def prngNat (s0 : ℕ) : ℕ → ℕ
  | 0 => mulberryOutput (mulberryAdvance s0)
  | n + 1 => prngNat (mulberryAdvance s0) n

/-- `n`-th output of the PRNG as the JS float in `[0,1)`:
`((t ^ (t >>> 14)) >>> 0) / 4294967296`. -/
def prngVal (s0 : ℕ) (n : ℕ) : ℚ := (prngNat s0 n : ℚ) / 4294967296

theorem mask32_lt (n : ℕ) : mask32 n < 4294967296 := Nat.mod_lt _ (by norm_num)

theorem shiftRight_le_self (a k : ℕ) : a >>> k ≤ a := by
  rw [Nat.shiftRight_eq_div_pow]
  exact Nat.div_le_self _ _

theorem mulberryT2_lt (t1 : ℕ) (h : t1 < 4294967296) : mulberryT2 t1 < 4294967296 := by
  have h32 : (4294967296 : ℕ) = 2 ^ 32 := by norm_num
  exact h32 ▸ Nat.xor_lt_two_pow (h32 ▸ h) (h32 ▸ mask32_lt _)

theorem mulberryOutput_lt (s : ℕ) : mulberryOutput s < 4294967296 := by
  have h32 : (4294967296 : ℕ) = 2 ^ 32 := by norm_num
  have l3 : mulberryT2 (mulberryT1 (mask32 s)) < 4294967296 := mulberryT2_lt _ (mask32_lt _)
  have l4 : mulberryT2 (mulberryT1 (mask32 s)) >>> 14 < 4294967296 :=
    lt_of_le_of_lt (shiftRight_le_self _ _) l3
  exact h32 ▸ Nat.xor_lt_two_pow (h32 ▸ l3) (h32 ▸ l4)

theorem prngNat_lt (s0 n : ℕ) : prngNat s0 n < 4294967296 := by
  induction n generalizing s0 with
  | zero => exact mulberryOutput_lt _
  | succ n ih => exact ih _

theorem prngVal_nonneg (s0 n : ℕ) : 0 ≤ prngVal s0 n := by
  unfold prngVal
  positivity

theorem prngVal_lt_one (s0 n : ℕ) : prngVal s0 n < 1 := by
  unfold prngVal
  rw [div_lt_one (by norm_num)]
  exact_mod_cast prngNat_lt s0 n

/-! ### SHA-256 over byte lists

`createPRNG` reduces string seeds through `crypto.createHash('sha256')`, and
`computeFingerprintHash` truncates a SHA-256 hex digest.  The digest is
implemented here over lists of byte values (`ℕ` below 256), all word
arithmetic reduced modulo `2^32`. -/

/-- 32-bit right rotation. -/
def rotr32 (k x : ℕ) : ℕ := mask32 ((x >>> k) ||| (x <<< (32 - k)))

def shaCh (x y z : ℕ) : ℕ := (x &&& y) ^^^ ((x ^^^ 4294967295) &&& z)

def shaMaj (x y z : ℕ) : ℕ := (x &&& y) ^^^ (x &&& z) ^^^ (y &&& z)

def shaBigSigma0 (x : ℕ) : ℕ := rotr32 2 x ^^^ rotr32 13 x ^^^ rotr32 22 x

def shaBigSigma1 (x : ℕ) : ℕ := rotr32 6 x ^^^ rotr32 11 x ^^^ rotr32 25 x

def shaSmallSigma0 (x : ℕ) : ℕ := rotr32 7 x ^^^ rotr32 18 x ^^^ (x >>> 3)

def shaSmallSigma1 (x : ℕ) : ℕ := rotr32 17 x ^^^ rotr32 19 x ^^^ (x >>> 10)

/-- The 64 SHA-256 round constants. -/
def shaK : List ℕ := [
  1116352408, 1899447441, 3049323471, 3921009573, 961987163, 1508970993, 2453635748, 2870763221,
  3624381080, 310598401, 607225278, 1426881987, 1925078388, 2162078206, 2614888103, 3248222580,
  3835390401, 4022224774, 264347078, 604807628, 770255983, 1249150122, 1555081692, 1996064986,
  2554220882, 2821834349, 2952996808, 3210313671, 3336571891, 3584528711, 113926993, 338241895,
  666307205, 773529912, 1294757372, 1396182291, 1695183700, 1986661051, 2177026350, 2456956037,
  2730485921, 2820302411, 3259730800, 3345764771, 3516065817, 3600352804, 4094571909, 275423344,
  430227734, 506948616, 659060556, 883997877, 958139571, 1322822218, 1537002063, 1747873779,
  1955562222, 2024104815, 2227730452, 2361852424, 2428436474, 2756734187, 3204031479, 3329325298]

/-- The eight SHA-256 working variables. -/
structure ShaState where
  a : ℕ
  b : ℕ
  c : ℕ
  d : ℕ
  e : ℕ
  f : ℕ
  g : ℕ
  h : ℕ
deriving DecidableEq

/-- SHA-256 initial hash value. -/
def shaH0 : ShaState :=
  ⟨1779033703, 3144134277, 1013904242, 2773480762, 1359893119, 2600822924, 528734635, 1541459225⟩

/-- The first 16 big-endian message-schedule words of a 64-byte chunk. -/
def shaWords16 (chunk : List ℕ) : List ℕ :=
  (List.range 16).map (fun i =>
    chunk.getD (4 * i) 0 * 16777216 + chunk.getD (4 * i + 1) 0 * 65536 +
      chunk.getD (4 * i + 2) 0 * 256 + chunk.getD (4 * i + 3) 0)

/-- Extension of the schedule to 64 words. -/
def shaSchedule (w16 : List ℕ) : List ℕ :=
  (List.range 48).foldl (fun w j =>
    let i := j + 16
    w ++ [mask32 (shaSmallSigma1 (w.getD (i - 2) 0) + w.getD (i - 7) 0 +
      shaSmallSigma0 (w.getD (i - 15) 0) + w.getD (i - 16) 0)]) w16

/-- One compression round. -/
def shaRound (st : ShaState) (k w : ℕ) : ShaState :=
  let t1 := mask32 (st.h + shaBigSigma1 st.e + shaCh st.e st.f st.g + k + w)
  let t2 := mask32 (shaBigSigma0 st.a + shaMaj st.a st.b st.c)
  ⟨mask32 (t1 + t2), st.a, st.b, st.c, mask32 (st.d + t1), st.e, st.f, st.g⟩

/-- Compression of one 64-byte chunk into the running state. -/
def shaCompress (st : ShaState) (chunk : List ℕ) : ShaState :=
  let w := shaSchedule (shaWords16 chunk)
  let fin := (List.range 64).foldl (fun s i => shaRound s (shaK.getD i 0) (w.getD i 0)) st
  ⟨mask32 (st.a + fin.a), mask32 (st.b + fin.b), mask32 (st.c + fin.c), mask32 (st.d + fin.d),
    mask32 (st.e + fin.e), mask32 (st.f + fin.f), mask32 (st.g + fin.g), mask32 (st.h + fin.h)⟩

/-- Big-endian 8-byte encoding of a (64-bit) length value. -/
def beBytes8 (n : ℕ) : List ℕ :=
  [(n >>> 56) % 256, (n >>> 48) % 256, (n >>> 40) % 256, (n >>> 32) % 256,
    (n >>> 24) % 256, (n >>> 16) % 256, (n >>> 8) % 256, n % 256]

/-- Big-endian 4-byte encoding of a 32-bit word. -/
def beBytes4 (n : ℕ) : List ℕ :=
  [(n >>> 24) % 256, (n >>> 16) % 256, (n >>> 8) % 256, n % 256]

/-- SHA-256 padding: `0x80`, zeros to 56 mod 64, then the bit length. -/
def shaPad (msg : List ℕ) : List ℕ :=
  msg ++ [128] ++ List.replicate ((64 - ((msg.length + 9) % 64)) % 64) 0 ++
    beBytes8 (8 * msg.length)

/-- Split a byte list into 64-byte chunks. -/
def chunks64 (l : List ℕ) : List (List ℕ) :=
  if h : l = [] then [] else l.take 64 :: chunks64 (l.drop 64)
termination_by l.length
decreasing_by
  have hpos : 0 < l.length := List.length_pos.mpr h
  simp only [List.length_drop]
  omega

/-- The digest bytes of a final state. -/
def shaStateBytes (st : ShaState) : List ℕ :=
  beBytes4 st.a ++ beBytes4 st.b ++ beBytes4 st.c ++ beBytes4 st.d ++
    beBytes4 st.e ++ beBytes4 st.f ++ beBytes4 st.g ++ beBytes4 st.h

/-- SHA-256 digest (32 bytes) of a byte-list message. -/
def sha256 (msg : List ℕ) : List ℕ :=
  shaStateBytes ((chunks64 (shaPad msg)).foldl shaCompress shaH0)

/-- UTF-8 encoding of one character as byte values. -/
def utf8EncodeCharNat (c : Char) : List ℕ :=
  let n := c.toNat
  if n < 128 then [n]
  else if n < 2048 then [192 + n / 64, 128 + n % 64]
  else if n < 65536 then [224 + n / 4096, 128 + (n / 64) % 64, 128 + n % 64]
  else [240 + n / 262144, 128 + (n / 4096) % 64, 128 + (n / 64) % 64, 128 + n % 64]

/-- UTF-8 encoding of a string as byte values (what `hash.update(string)`
digests in Node). -/
def utf8Bytes (s : String) : List ℕ := (s.data.map utf8EncodeCharNat).flatten

/-- Lower-case hex character for a value below 16. -/
def hexDigit (n : ℕ) : Char :=
  if n < 10 then Char.ofNat (48 + n) else Char.ofNat (87 + n)

/-- Lower-case hex string of a byte list (`digest('hex')`, `toString('hex')`). -/
def bytesToHex (bytes : List ℕ) : String :=
  ⟨(bytes.map (fun b => [hexDigit (b / 16 % 16), hexDigit (b % 16)])).flatten⟩

/-! ### Seed reduction and `createPRNG` -/

/-- `Buffer.readUInt32LE(0)`: the first four bytes, little-endian.  It is
only applied to 32-byte digests; shorter lists (where the Buffer method
would throw a range error) are mapped to 0. -/
def readUInt32LE (bytes : List ℕ) : ℕ :=
  match bytes with
  | b0 :: b1 :: b2 :: b3 :: _ => b0 + b1 * 256 + b2 * 65536 + b3 * 16777216
  | _ => 0

/-- A non-null generation seed: a JS number (integral) or a string. -/
inductive SeedValue where
  | num (n : ℤ)
  | str (s : String)
deriving DecidableEq, Inhabited

/-- Seed reduction of `createPRNG`: a string is digested with SHA-256 and the
first four digest bytes are read little-endian; the resulting integer (or the
numeric seed itself) is coerced with `>>> 0`. -/
def seedToState : SeedValue → ℕ
  | .num n => toUint32 n
  | .str s => mask32 (readUInt32LE (sha256 (utf8Bytes s)))

/-- `createPRNG(seed)` for a non-null seed: the deterministic output stream. -/
def createPRNG (seed : SeedValue) : ℕ → ℚ := prngVal (seedToState seed)

theorem readUInt32LE_sha_lt (st : ShaState) : readUInt32LE (shaStateBytes st) < 4294967296 := by
  show (st.a >>> 24) % 256 + (st.a >>> 16) % 256 * 256 + (st.a >>> 8) % 256 * 65536 +
    st.a % 256 * 16777216 < 4294967296
  omega

/-- C4: two PRNGs created by `createPRNG` from the same non-null seed produce
equal sequences of their first `n` outputs, each output lying in `[0, 1)`;
a string seed is first reduced to the 32-bit unsigned integer given by the
first 4 bytes, read little-endian, of its SHA-256 digest. -/
theorem createPRNG_deterministic (s1 s2 : SeedValue) (n : ℕ) (hseed : s1 = s2) :
    ((List.range n).map (createPRNG s1) = (List.range n).map (createPRNG s2)) ∧
    (∀ k, 0 ≤ createPRNG s1 k ∧ createPRNG s1 k < 1) ∧
    (∀ s : String, seedToState (SeedValue.str s) =
      (sha256 (utf8Bytes s)).getD 0 0 + (sha256 (utf8Bytes s)).getD 1 0 * 256 +
        (sha256 (utf8Bytes s)).getD 2 0 * 65536 + (sha256 (utf8Bytes s)).getD 3 0 * 16777216) := by
  subst hseed
  refine ⟨rfl, fun k => ⟨prngVal_nonneg _ _, prngVal_lt_one _ _⟩, fun s => ?_⟩
  have hlt : readUInt32LE (sha256 (utf8Bytes s)) < 4294967296 := readUInt32LE_sha_lt _
  show mask32 (readUInt32LE (sha256 (utf8Bytes s))) = _
  rw [mask32, Nat.mod_eq_of_lt hlt]
  rfl

/-- Witness for C4: the hypothesis `s1 = s2` is discharged at the concrete
seed 42. -/
theorem createPRNG_deterministic_witness :
    ((List.range 2).map (createPRNG (SeedValue.num 42)) =
      (List.range 2).map (createPRNG (SeedValue.num 42))) ∧
    (∀ k, 0 ≤ createPRNG (SeedValue.num 42) k ∧ createPRNG (SeedValue.num 42) k < 1) ∧
    (∀ s : String, seedToState (SeedValue.str s) =
      (sha256 (utf8Bytes s)).getD 0 0 + (sha256 (utf8Bytes s)).getD 1 0 * 256 +
        (sha256 (utf8Bytes s)).getD 2 0 * 65536 + (sha256 (utf8Bytes s)).getD 3 0 * 16777216) :=
  createPRNG_deterministic (SeedValue.num 42) (SeedValue.num 42) 2 rfl

/-! ### Uniform picking and the weighted categorical sampler

`pickRandom(list, rand)` consumes one draw (unless the list is empty, in
which case it returns before calling `rand`).  The single-draw core is
separated from the stream-threading wrapper. -/

/-- `pickRandom` applied to the value of its one draw:
`list[Math.max(0, Math.min(Math.floor(r * list.length), list.length - 1))]`. -/
def pickRandom {α : Type} (list : List α) (r : ℚ) : Option α :=
  if list.isEmpty then none
  else list.get? (Int.toNat (max 0 (min (Int.floor (r * list.length)) ((list.length : ℤ) - 1))))

/-- Stream-threading form of `pickRandom`. -/
def pickRandomS {α : Type} (list : List α) (rand : ℕ → ℚ) (i : ℕ) : Option α × ℕ :=
  if list.isEmpty then (none, i) else (pickRandom list (rand i), i + 1)

theorem pickRandom_isSome {α : Type} (l : List α) (r : ℚ) (hne : l ≠ []) :
    ∃ a, pickRandom l r = some a ∧ a ∈ l := by
  have hlen : 0 < l.length := List.length_pos.mpr hne
  have hidx : Int.toNat (max 0 (min (Int.floor (r * l.length)) ((l.length : ℤ) - 1))) <
      l.length := by
    have h1 : min (Int.floor (r * l.length)) ((l.length : ℤ) - 1) ≤ (l.length : ℤ) - 1 :=
      min_le_right _ _
    have h2 : max 0 (min (Int.floor (r * l.length)) ((l.length : ℤ) - 1)) ≤ (l.length : ℤ) - 1 :=
      max_le (by omega) h1
    omega
  refine ⟨l.get ⟨_, hidx⟩, ?_, List.get_mem _ _ hidx⟩
  rw [pickRandom, if_neg (by simpa using hne)]
  exact List.get?_eq_get hidx

/-- A weight-table entry: display label, normalized key, numeric weight. -/
structure WEntry where
  label : String
  key : String
  weight : ℚ
deriving DecidableEq, Inhabited

/-- The accumulation loop of `sampleWeightedCategory`: first entry whose
cumulative weight reaches the target, defaulting to the last entry seen when
the loop runs out. -/
def weightedPickAux (target : ℚ) : List WEntry → ℚ → WEntry → WEntry
  | [], _, last => last
  | e :: rest, cum, _ =>
    if target ≤ cum + e.weight then e else weightedPickAux target rest (cum + e.weight) e

/-- `for (const entry of filtered) ... return filtered[filtered.length-1]`. -/
def weightedPick (es : List WEntry) (target : ℚ) : Option WEntry :=
  match es with
  | [] => none
  | e :: rest => some (weightedPickAux target (e :: rest) 0 e)

/-- The filtering step of `sampleWeightedCategory`: a present allow set with
`size > 0` filters the entries by key membership. -/
def filterAllowed (entries : List WEntry) : Option (List String) → List WEntry
  | some ks => if ks.isEmpty then entries else entries.filter (fun e => ks.contains e.key)
  | none => entries

/-- `sampleWeightedCategory(entries, allowedKeys, rand)`.  The allow set is
modelled as an optional key list (`none` for a null argument); a present but
empty set has `size == 0` and therefore does not filter, as in the source. -/
def sampleWeightedCategory (entries : List WEntry) (allowedKeys : Option (List String))
    (rand : ℕ → ℚ) (i : ℕ) : Option WEntry × ℕ :=
  if entries.isEmpty then (none, i) else
  let filtered := filterAllowed entries allowedKeys
  if filtered.isEmpty then (none, i) else
  let total := filtered.foldl (fun s e => s + e.weight) 0
  if total ≤ 0 then (pickRandom filtered (rand i), i + 1)
  else (weightedPick filtered (rand i * total), i + 1)

/-! ### Specification-side description of the sampler (for claim C3) -/

/-- Cumulative weight of the first `k+1` entries, as the specification
phrases the roulette rule. -/
def specCumulative (es : List WEntry) (k : ℕ) : ℚ := ((es.take (k + 1)).map WEntry.weight).sum

/-- Roulette selection as the specification words it: the first entry, in
list order, whose cumulative weight reaches the target; the last entry when
the accumulation overruns. -/
def specRouletteChoice (es : List WEntry) (target : ℚ) : Option WEntry :=
  match (List.range es.length).find? (fun k => decide (target ≤ specCumulative es k)) with
  | some k => es.get? k
  | none => es.getLast?

/-- The weighted categorical sampler exactly as claim C3 describes it. -/
def specSampleWeighted (entries : List WEntry) (allowedKeys : Option (List String))
    (rand : ℕ → ℚ) (i : ℕ) : Option WEntry × ℕ :=
  if entries.isEmpty then (none, i) else
  let filtered := filterAllowed entries allowedKeys
  if filtered.isEmpty then (none, i) else
  let total := (filtered.map WEntry.weight).sum
  if total ≤ 0 then (pickRandom filtered (rand i), i + 1)
  else (specRouletteChoice filtered (rand i * total), i + 1)

/-- Generalisation of `specRouletteChoice` over an accumulated prefix sum and
the last entry already seen, matching the shape of `weightedPickAux`. -/
def specPickFrom (es : List WEntry) (target cum : ℚ) (last : WEntry) : WEntry :=
  match (List.range es.length).find? (fun k => decide (target ≤ cum + specCumulative es k)) with
  | some k => (es.get? k).getD last
  | none => es.getLast?.getD last

theorem specCumulative_cons_zero (e : WEntry) (rest : List WEntry) :
    specCumulative (e :: rest) 0 = e.weight := by
  simp [specCumulative]

theorem specCumulative_cons_succ (e : WEntry) (rest : List WEntry) (k : ℕ) :
    specCumulative (e :: rest) (k + 1) = e.weight + specCumulative rest k := by
  simp [specCumulative, List.take_cons]

theorem weightedPickAux_eq_specPickFrom (es : List WEntry) :
    ∀ (target cum : ℚ) (last : WEntry),
      weightedPickAux target es cum last = specPickFrom es target cum last := by
  induction es with
  | nil =>
    intro target cum last
    simp [weightedPickAux, specPickFrom]
  | cons e rest ih =>
    intro target cum last
    rw [weightedPickAux, specPickFrom, List.length_cons, List.range_succ_eq_map,
      List.find?_cons]
    by_cases hpos : target ≤ cum + e.weight
    · rw [if_pos hpos]
      have hp0 : decide (target ≤ cum + specCumulative (e :: rest) 0) = true := by
        simp [specCumulative_cons_zero, hpos]
      rw [hp0]
      simp
    · rw [if_neg hpos]
      have hp0 : decide (target ≤ cum + specCumulative (e :: rest) 0) = false := by
        simp [specCumulative_cons_zero, hpos]
      rw [hp0, List.find?_map]
      have hfun : ((fun k => decide (target ≤ cum + specCumulative (e :: rest) k)) ∘ Nat.succ) =
          (fun k => decide (target ≤ cum + e.weight + specCumulative rest k)) := by
        funext k
        simp only [Function.comp_apply, specCumulative_cons_succ]
        exact decide_eq_decide.mpr (by constructor <;> intro h <;> linarith)
      rw [hfun, ih target (cum + e.weight) e, specPickFrom]
      cases hfind : (List.range rest.length).find? (fun k =>
          decide (target ≤ cum + e.weight + specCumulative rest k)) with
      | none =>
        simp only [Option.map_none]
        cases rest with
        | nil => simp
        | cons r t =>
          obtain ⟨x, hx⟩ := Option.isSome_iff_exists.mp
            (List.getLast?_isSome.mpr (List.cons_ne_nil r t))
          show ((r :: t).getLast?).getD e = ((e :: r :: t).getLast?).getD last
          rw [List.getLast?_cons_cons, hx]
          rfl
      | some k =>
        have hk : k < rest.length := by
          have hmem := List.mem_of_find?_eq_some hfind
          exact List.mem_range.mp hmem
        have hv : rest.get? k = some (rest.get ⟨k, hk⟩) := List.get?_eq_get hk
        show (rest.get? k).getD e = ((e :: rest).get? (Nat.succ k)).getD last
        rw [List.get?_cons_succ, hv]
        rfl

theorem weightedPick_eq_spec (es : List WEntry) (hne : es ≠ []) (target : ℚ) :
    weightedPick es target = specRouletteChoice es target := by
  cases es with
  | nil => exact absurd rfl hne
  | cons e rest =>
    rw [weightedPick, weightedPickAux_eq_specPickFrom]
    unfold specPickFrom specRouletteChoice
    have hfun : (fun k => decide (target ≤ 0 + specCumulative (e :: rest) k)) =
        (fun k => decide (target ≤ specCumulative (e :: rest) k)) := by
      funext k
      rw [zero_add]
    rw [hfun]
    cases hfind : (List.range (e :: rest).length).find?
        (fun k => decide (target ≤ specCumulative (e :: rest) k)) with
    | some k =>
      have hk : k < (e :: rest).length := List.mem_range.mp (List.mem_of_find?_eq_some hfind)
      have hv := List.get?_eq_get (l := e :: rest) hk
      show some (((e :: rest).get? k).getD e) = (e :: rest).get? k
      rw [hv]
      rfl
    | none =>
      obtain ⟨x, hx⟩ := Option.isSome_iff_exists.mp
        (List.getLast?_isSome.mpr (List.cons_ne_nil e rest))
      show some ((e :: rest).getLast?.getD e) = (e :: rest).getLast?
      rw [hx]
      rfl

theorem foldl_weight_sum (l : List WEntry) (c : ℚ) :
    l.foldl (fun s e => s + e.weight) c = c + (l.map WEntry.weight).sum := by
  induction l generalizing c with
  | nil => simp
  | cons e rest ih => simp [List.foldl_cons, ih, add_assoc]

/-- C3: `sampleWeightedCategory` behaves exactly as specified: null on empty
entries; a non-empty allow set filters by key and yields null when nothing
survives; a non-positive filtered total falls back to a uniform pick; and
otherwise the first entry in list order whose cumulative weight reaches
`rand() * total` is returned, the last entry on overrun. -/
theorem sampleWeightedCategory_correct (entries : List WEntry) (ak : Option (List String))
    (rand : ℕ → ℚ) (i : ℕ) :
    sampleWeightedCategory entries ak rand i = specSampleWeighted entries ak rand i := by
  unfold sampleWeightedCategory specSampleWeighted
  by_cases he : entries.isEmpty = true
  · simp [he]
  · simp only [he, if_false]
    by_cases hf : (filterAllowed entries ak).isEmpty = true
    · simp [hf]
    · simp only [hf, if_false]
      rw [foldl_weight_sum, zero_add]
      by_cases ht : (List.map WEntry.weight (filterAllowed entries ak)).sum ≤ 0
      · simp [ht]
      · simp only [ht, if_false]
        rw [weightedPick_eq_spec _ (by simpa using hf)]

/-- C10: `pickRandom` is total on non-empty lists for any draw stream with
non-negative outputs: the computed index is clamped into `[0, length-1]`,
so an element of the list is always returned, never `undefined`. -/
theorem pickRandom_total (α : Type) (l : List α) (rand : ℕ → ℚ) (i : ℕ)
    (hne : l ≠ []) (_hnn : ∀ j, 0 ≤ rand j) :
    ∃ a, (pickRandomS l rand i).1 = some a ∧ a ∈ l := by
  obtain ⟨a, ha, hmem⟩ := pickRandom_isSome l (rand i) hne
  refine ⟨a, ?_, hmem⟩
  rw [pickRandomS, if_neg (by simpa using hne)]
  exact ha

/-- Witness for C10 on a concrete three-element list. -/
theorem pickRandom_total_witness :
    ∃ a, (pickRandomS [10, 20, 30] (fun _ => (1 : ℚ) / 2) 0).1 = some a ∧ a ∈ [10, 20, 30] :=
  pickRandom_total ℕ [10, 20, 30] (fun _ => (1 : ℚ) / 2) 0 (by decide) (fun _ => by norm_num)

/-! ### JS string helpers used by the engine -/

/-- `needle` occurs as a contiguous sublist (JS `String.prototype.includes`). -/
def listInfix {α : Type} [BEq α] (needle : List α) : List α → Bool
  | [] => needle.isEmpty
  | x :: rest => needle.isPrefixOf (x :: rest) || listInfix needle rest

/-- JS `s.includes(sub)`. -/
def strIncludes (s sub : String) : Bool := listInfix sub.data s.data

/-- JS `s.toLowerCase()` (ASCII-relevant part). -/
def jsToLower (s : String) : String := s.map Char.toLower

/-- `toLowerKey(value, fallback = 'unknown')`: empty or absent strings fall
back, otherwise trim and lower-case (falling back again if that is empty). -/
def toLowerKey (value : Option String) (fallback : String) : String :=
  match value with
  | none => fallback
  | some s =>
    if s = "" then fallback
    else
      let t := jsToLower s.trim
      if t = "" then fallback else t

/-- `toLowerKey` with its default fallback `'unknown'`. -/
def toLowerKeyD (value : Option String) : String := toLowerKey value "unknown"

/-! ### Association-list model of the JS `Map`s inside the aggregates

A `Map` preserves key insertion order; `alPush` appends a value to the list
at a key, creating the key at the end on first use (`pushValue` in the
source). -/

def alPush {κ α : Type} [BEq κ] (m : List (κ × List α)) (k : κ) (v : α) :
    List (κ × List α) :=
  if m.any (fun p => p.1 == k) then
    m.map (fun p => if p.1 == k then (p.1, p.2 ++ [v]) else p)
  else m ++ [(k, [v])]

/-- `map.get(key)`: `undefined` when the key is absent. -/
def alGet {κ α : Type} [BEq κ] (m : List (κ × List α)) (k : κ) : Option (List α) :=
  (m.find? (fun p => p.1 == k)).map Prod.snd

/-- JS `Set.add` on an insertion-ordered, duplicate-free list. -/
def setAdd (l : List String) (k : String) : List String :=
  if l.contains k then l else l ++ [k]

/-! ### The fingerprint record model

JS objects are modelled structurally; an absent field (or a field whose only
uses treat `null` and `undefined` alike) is `none`. -/

structure NavigatorData where
  userAgent : Option String
  appVersion : Option String
  platform : Option String
  vendor : Option String
  language : Option String
  languages : Option (List String)
  cookieEnabled : Option Bool
  doNotTrack : Option String
  hardwareConcurrency : Option ℚ
  deviceMemory : Option ℚ
  maxTouchPoints : Option ℚ
  product : Option String
  productSub : Option String
  webdriver : Option Bool
deriving DecidableEq, Inhabited

structure ScreenInfo where
  width : Option ℚ
  height : Option ℚ
  availWidth : Option ℚ
  availHeight : Option ℚ
  colorDepth : Option ℚ
  pixelDepth : Option ℚ
deriving DecidableEq, Inhabited

structure TimezoneInfo where
  offset : Option ℚ
  name : Option String
deriving DecidableEq, Inhabited

structure WebglInfo where
  supported : Option Bool
  vendor : Option String
  renderer : Option String
  glVendor : Option String
  glRenderer : Option String
  version : Option String
  shadingLanguageVersion : Option String
deriving DecidableEq, Inhabited

structure AudioInfo where
  supported : Option Bool
  sampleRate : Option ℚ
  state : Option String
  maxChannelCount : Option ℚ
deriving DecidableEq, Inhabited

structure PluginInfo where
  name : Option String
  description : Option String
  filename : Option String
deriving DecidableEq, Inhabited

structure MimeTypeInfo where
  type : Option String
  description : Option String
  suffixes : Option String
deriving DecidableEq, Inhabited

/-- The feature-flag map, restricted to the keys the engine manipulates
(`FEATURE_VARIATION` and the default feature sets). -/
structure FeaturesInfo where
  indexedDB : Option Bool
  localStorage : Option Bool
  sessionStorage : Option Bool
  webgl : Option Bool
  webgl2 : Option Bool
  serviceWorker : Option Bool
  notification : Option Bool
  geolocation : Option Bool
deriving DecidableEq, Inhabited

structure SourceMeta where
  generator : Option String
  baseFilename : Option String
  seed : Option SeedValue
  sampledBrowser : Option String
  sampledOsCategory : Option String
  sampledOsDetail : Option String
  sampledBrowserVersion : Option String
  sampledLanguageCode : Option String
  sampledTimezoneLabel : Option String
  generationMode : Option String
deriving DecidableEq, Inhabited

structure Fingerprint where
  navigator : Option NavigatorData
  screen : Option ScreenInfo
  timezone : Option TimezoneInfo
  webgl : Option WebglInfo
  canvas : Option String
  audio : Option AudioInfo
  plugins : Option (List PluginInfo)
  mimeTypes : Option (List MimeTypeInfo)
  features : Option FeaturesInfo
  browserName : Option String
  synthetic : Option Bool
  source : Option String
  capturedFrom : Option String
  generatedAt : Option String
  syntheticId : Option String
  sourceMetadata : Option SourceMeta
deriving DecidableEq, Inhabited

/-- A corpus record as produced by `loadSourceFingerprints`. -/
structure SourceRecord where
  filename : String
  fingerprint : Fingerprint
  browserKey : String
  osCategory : String
deriving DecidableEq, Inhabited

/-! ### Static tables of the engine -/

/-- `MOBILE_OS`. -/
def mobileOs : List String := ["android", "ios"]

/-- `DEFAULT_PLATFORMS`. -/
def defaultPlatforms : List (String × String) := [
  ("android", "Linux armv81"),
  ("ios", "iPhone"),
  ("mac os", "MacIntel"),
  ("windows", "Win32"),
  ("gnu/linux based", "Linux x86_64"),
  ("others", "Unknown")]

/-- `BROWSER_OS_COMPATIBILITY`: static browser to allowed-OS-set map, in
source insertion order. -/
def browserOsCompatibility : List (String × List String) := [
  ("chrome", ["android", "windows", "mac os", "gnu/linux based", "ios"]),
  ("firefox", ["android", "windows", "mac os", "gnu/linux based"]),
  ("edge", ["windows", "mac os"]),
  ("safari", ["mac os"]),
  ("mobile safari", ["ios"]),
  ("brave", ["windows", "mac os", "gnu/linux based"]),
  ("opera", ["windows", "mac os", "gnu/linux based", "android"]),
  ("gsa", ["android", "ios"]),
  ("samsung browser", ["android"]),
  ("webkit", ["mac os"])]

/-- `BROWSER_VENDOR`. -/
def browserVendor : List (String × String) := [
  ("chrome", "Google Inc."),
  ("firefox", "Mozilla Foundation"),
  ("edge", "Microsoft Corporation"),
  ("safari", "Apple Inc."),
  ("mobile safari", "Apple Inc."),
  ("brave", "Brave Software"),
  ("opera", "Opera Software"),
  ("gsa", "Google Inc."),
  ("samsung browser", "Samsung Electronics"),
  ("webkit", "Apple Inc.")]

/-- Plain-map lookup (`TABLE[key]`), `undefined` when absent. -/
def tblGet {α : Type} (m : List (String × α)) (k : String) : Option α :=
  (m.find? (fun p => p.1 == k)).map Prod.snd

/-- `detectOsCategory(fingerprint)`. -/
def detectOsCategory (fp : Fingerprint) : String :=
  let platform := toLowerKeyD (some ((fp.navigator.bind (·.platform)).getD ""))
  let ua := toLowerKeyD (some ((fp.navigator.bind (·.userAgent)).getD ""))
  let browser := toLowerKeyD (some (fp.browserName.getD ""))
  if strIncludes platform "iphone" || strIncludes platform "ipad" ||
      browser = "mobile safari" then "ios"
  else if strIncludes platform "mac" then "mac os"
  else if strIncludes platform "win" then "windows"
  else if strIncludes platform "android" || strIncludes ua "android" ||
      browser = "samsung browser" then "android"
  else if strIncludes platform "linux" then "gnu/linux based"
  else "others"

/-- `isUserAgentCompatible(userAgent, osCategory)`. -/
def isUserAgentCompatible (userAgent : Option String) (osCategory : String) : Bool :=
  match userAgent with
  | none => false
  | some ua =>
    if ua = "" then false
    else
      let lower := jsToLower ua
      if osCategory = "android" then strIncludes lower "android"
      else if osCategory = "ios" then strIncludes lower "iphone" || strIncludes lower "ipad"
      else if osCategory = "windows" then strIncludes lower "windows"
      else if osCategory = "mac os" then
        strIncludes lower "macintosh" || strIncludes lower "mac os x"
      else if osCategory = "gnu/linux based" then
        strIncludes lower "linux" || strIncludes lower "x11"
      else true

/-- `isPlatformCompatible(platform, osCategory)`. -/
def isPlatformCompatible (platform : Option String) (osCategory : String) : Bool :=
  match platform with
  | none => false
  | some p =>
    if p = "" then false
    else
      let lower := jsToLower p
      if osCategory = "android" then strIncludes lower "linux" || strIncludes lower "android"
      else if osCategory = "ios" then strIncludes lower "iphone" || strIncludes lower "ipad"
      else if osCategory = "windows" then strIncludes lower "win"
      else if osCategory = "mac os" then strIncludes lower "mac"
      else if osCategory = "gnu/linux based" then strIncludes lower "linux"
      else true

/-- The weight tables loaded by `ensureDistributions`. -/
structure Distributions where
  browser : List WEntry
  os : List WEntry
  language : List WEntry
  timezone : List WEntry
  browserVersions : List (String × List WEntry)
  osDetails : List (String × List WEntry)
deriving DecidableEq

/-- Distributions with every table missing or empty (each `loadWeightedCsv`
failure degrades to an empty list). -/
def emptyDistributions : Distributions := ⟨[], [], [], [], [], []⟩

/-- Helper to build a fully populated `WebglInfo` literal. -/
def mkWebgl (vendor renderer glVendor glRenderer version shading : String) : WebglInfo :=
  ⟨some true, some vendor, some renderer, some glVendor, some glRenderer,
    some version, some shading⟩

/-- `DEFAULT_WEBGL`. -/
def defaultWebgl : List (String × WebglInfo) := [
  ("android", mkWebgl "Qualcomm" "Qualcomm Adreno" "Qualcomm" "OpenGL ES 3.2 V@415.0"
    "WebGL 1.0" "WebGL GLSL ES 1.0"),
  ("ios", mkWebgl "Apple Inc." "Apple GPU" "Apple Inc." "Apple GPU" "WebGL 2.0"
    "WebGL GLSL ES 3.0"),
  ("windows", mkWebgl "Google Inc." "ANGLE (NVIDIA GeForce GTX, Direct3D11)" "Google Inc."
    "ANGLE" "WebGL 1.0 (OpenGL ES 2.0 Chromium)"
    "WebGL GLSL ES 1.0 (OpenGL ES GLSL ES 1.0 Chromium)"),
  ("mac os", mkWebgl "ATI Technologies Inc." "AMD Radeon Pro" "ATI Technologies Inc."
    "AMD Radeon Pro" "WebGL 2.0" "WebGL GLSL ES 3.0"),
  ("gnu/linux based", mkWebgl "Google Inc. (Intel)" "ANGLE (Intel(R) UHD Graphics)"
    "Google Inc." "ANGLE" "WebGL 1.0" "WebGL GLSL ES 1.0"),
  ("others", mkWebgl "Google Inc." "WebGL Renderer" "Google Inc." "ANGLE" "WebGL 1.0"
    "WebGL GLSL ES 1.0")]

/-- `WEBGL_CANDIDATES`. -/
def webglCandidates : List (String × List WebglInfo) := [
  ("android", [
    mkWebgl "Qualcomm" "Adreno (TM) 740" "Qualcomm" "Adreno (TM) 740"
      "WebGL 2.0 (OpenGL ES 3.2 V@154.0)" "WebGL GLSL ES 3.0",
    mkWebgl "ARM" "Mali-G715" "ARM" "Mali-G715" "WebGL 2.0" "WebGL GLSL ES 3.0"]),
  ("ios", [
    mkWebgl "Apple Inc." "Apple GPU" "Apple Inc." "Apple GPU" "WebGL 2.0 (OpenGL ES 3.0)"
      "WebGL GLSL ES 3.00"]),
  ("windows", [
    mkWebgl "Google Inc." "ANGLE (NVIDIA GeForce RTX 3080, Direct3D11)" "Google Inc." "ANGLE"
      "WebGL 1.0 (OpenGL ES 2.0 Chromium)" "WebGL GLSL ES 1.0 (OpenGL ES GLSL ES 1.0)",
    mkWebgl "Google Inc." "ANGLE (Intel(R) UHD Graphics 630, Direct3D11)" "Google Inc." "ANGLE"
      "WebGL 2.0 (OpenGL ES 3.0 Chromium)" "WebGL GLSL ES 3.0 (OpenGL ES GLSL ES 3.0)"]),
  ("mac os", [
    mkWebgl "Apple Inc." "Apple M3" "Apple Inc." "Apple M3" "WebGL 2.0" "WebGL GLSL ES 3.0",
    mkWebgl "ATI Technologies Inc." "AMD Radeon RX 6800 XT" "ATI Technologies Inc."
      "AMD Radeon RX 6800 XT" "WebGL 2.0" "WebGL GLSL ES 3.0"]),
  ("gnu/linux based", [
    mkWebgl "Mesa/X.org" "AMD Radeon RX 5700 XT (RADV NAVI10)" "X.Org"
      "AMD Radeon RX 5700 XT (RADV NAVI10)" "WebGL 2.0 (OpenGL ES 3.0 Mesa 24.0)"
      "WebGL GLSL ES 3.0",
    mkWebgl "NVIDIA Corporation" "NVIDIA GeForce RTX 3060/PCIe/SSE2" "NVIDIA Corporation"
      "NVIDIA GeForce RTX 3060/PCIe/SSE2" "WebGL 2.0 (OpenGL ES 3.0 NVIDIA 550.40)"
      "WebGL GLSL ES 3.0"])]

/-- `DEFAULT_AUDIO`. -/
def defaultAudio : AudioInfo := ⟨some true, some 48000, some "running", some 2⟩

/-- `AUDIO_SAMPLE_RATES` and `AUDIO_STATES`. -/
def audioSampleRates : List ℚ := [44100, 48000]

def audioStates : List String := ["running", "suspended"]

/-- `DEFAULT_FEATURES_DESKTOP`. -/
def defaultFeaturesDesktop : FeaturesInfo :=
  ⟨some true, some true, some true, some true, some true, some true, some true, some true⟩

/-- `DEFAULT_FEATURES_MOBILE` (notification off). -/
def defaultFeaturesMobile : FeaturesInfo :=
  ⟨some true, some true, some true, some true, some true, some true, some false, some true⟩

/-- Helper to build a fully populated `ScreenInfo` literal. -/
def mkScreen (w h aw ah cd pd : ℚ) : ScreenInfo :=
  ⟨some w, some h, some aw, some ah, some cd, some pd⟩

/-- Screen presets carry only width/height/colorDepth/pixelDepth. -/
def mkPreset (w h cd pd : ℚ) : ScreenInfo := ⟨some w, some h, none, none, some cd, some pd⟩

/-- `DEFAULT_SCREENS`. -/
def defaultScreens : List (String × ScreenInfo) := [
  ("android", mkScreen 412 915 412 865 24 24),
  ("ios", mkScreen 390 844 390 780 32 32),
  ("windows", mkScreen 1920 1080 1920 1040 24 24),
  ("mac os", mkScreen 1440 900 1440 860 24 24),
  ("gnu/linux based", mkScreen 1920 1080 1920 1040 24 24),
  ("others", mkScreen 1280 720 1280 690 24 24)]

/-- `SCREEN_PRESETS`. -/
def screenPresets : List (String × List ScreenInfo) := [
  ("android", [mkPreset 360 800 24 24, mkPreset 390 844 24 24, mkPreset 412 915 24 24,
    mkPreset 430 932 24 24]),
  ("ios", [mkPreset 375 812 32 32, mkPreset 390 844 32 32, mkPreset 414 896 32 32,
    mkPreset 428 926 32 32]),
  ("windows", [mkPreset 1920 1080 24 24, mkPreset 2560 1440 24 24, mkPreset 1366 768 24 24,
    mkPreset 3840 2160 24 24]),
  ("mac os", [mkPreset 1440 900 24 24, mkPreset 1680 1050 24 24, mkPreset 2560 1440 30 30,
    mkPreset 2880 1800 30 30]),
  ("gnu/linux based", [mkPreset 1920 1080 24 24, mkPreset 2560 1440 24 24,
    mkPreset 1600 900 24 24, mkPreset 3440 1440 24 24])]

/-- One row of `HARDWARE_FALLBACKS`; `deviceMemory` and `doNotTrack` pools may
contain `null` entries. -/
structure HardwareFallback where
  hardwareConcurrency : List ℚ
  deviceMemory : List (Option ℚ)
  maxTouchPoints : List ℚ
  doNotTrack : List (Option String)
deriving DecidableEq, Inhabited

/-- `HARDWARE_FALLBACKS`. -/
def hardwareFallbacks : List (String × HardwareFallback) := [
  ("android", ⟨[4, 6, 8, 12], [some 4, some 6, some 8, some 12], [5, 8, 10],
    [none, some "1", some "unspecified"]⟩),
  ("ios", ⟨[4, 6, 8], [none, none, some 4], [5, 10], [none, some "unspecified"]⟩),
  ("windows", ⟨[4, 8, 12, 16, 20, 24, 32], [some 4, some 8, some 16, some 32, some 64],
    [0, 0, 1, 5], [none, some "1", some "0", some "unspecified"]⟩),
  ("mac os", ⟨[4, 6, 8, 12, 16, 24], [some 8, some 16, some 32], [0, 0, 1, 3],
    [none, some "unspecified"]⟩),
  ("gnu/linux based", ⟨[4, 8, 12, 16, 32], [some 8, some 16, some 32], [0, 1, 2],
    [none, some "unspecified"]⟩),
  ("others", ⟨[4, 8], [some 8, some 16], [0, 1, 5], [none, some "unspecified"]⟩)]

/-- `ANDROID_DEVICES`. -/
def androidDevices : List String :=
  ["Pixel 8", "Pixel 7", "Pixel 6", "SM-S928U", "SM-S918B", "SM-G998U", "OnePlus 11", "MI 13"]

/-- `IOS_DEVICES`. -/
def iosDevices : List String := [
  "iPhone; CPU iPhone OS 18_0 like Mac OS X",
  "iPhone; CPU iPhone OS 18_1 like Mac OS X",
  "iPhone; CPU iPhone OS 17_6 like Mac OS X",
  "iPad; CPU OS 17_5 like Mac OS X"]

def macPlatforms : List String := ["MacIntel", "MacPPC", "Mac68K"]

def windowsPlatforms : List String := ["Win32", "Win64", "Windows"]

def linuxPlatforms : List String := ["Linux x86_64", "Linux armv81", "Linux i686"]

/-- `PLUGIN_LIBRARY.default`. -/
def pluginLibraryDefault : List PluginInfo := [
  ⟨some "Chrome PDF Viewer", some "Portable Document Format", some "internal-pdf-viewer"⟩,
  ⟨some "Native Client", some "", some "internal-nacl-plugin"⟩,
  ⟨some "Widevine Content Decryption Module", some "Enables playback of protected content",
    some "widevinecdmadapter.plugin"⟩,
  ⟨some "Shockwave Flash", some "Shockwave Flash 32.0 r0", some "pepflashplayer.dll"⟩,
  ⟨some "QuickTime Plug-in", some "QuickTime Plug-in 7.7.3", some "npqtplugin.dll"⟩]

/-- `PLUGIN_LIBRARY.mac`. -/
def pluginLibraryMac : List PluginInfo := [
  ⟨some "Java Applet Plug-in", some "Java TM Plug-in 2", some "JTPlugin.plugin"⟩,
  ⟨some "Silverlight Plug-In", some "5.1.50901.0", some "Silverlight.plugin"⟩]

/-- `PLUGIN_LIBRARY.windows`. -/
def pluginLibraryWindows : List PluginInfo := [
  ⟨some "Windows Media Player Plug-in", some "", some "np-mswmp.dll"⟩]

/-- `MIMETYPE_LIBRARY.default`. -/
def mimeTypeLibraryDefault : List MimeTypeInfo := [
  ⟨some "application/pdf", some "", some "pdf"⟩,
  ⟨some "application/x-google-chrome-pdf", some "Portable Document Format", some "pdf"⟩,
  ⟨some "application/x-nacl", some "", some ""⟩]

/-- `MIMETYPE_LIBRARY.media`. -/
def mimeTypeLibraryMedia : List MimeTypeInfo := [
  ⟨some "video/mp4", some "MP4 Video", some "mp4"⟩,
  ⟨some "audio/webm", some "WebM audio", some "webm"⟩,
  ⟨some "application/x-shockwave-flash", some "Shockwave Flash", some "swf"⟩]

/-! ### Corpus aggregation (`buildAggregates`) -/

/-- JS truthiness of an optional string. -/
def jsTruthyStr (o : Option String) : Bool :=
  match o with
  | some s => s ≠ ""
  | none => false

/-- Insertion-ordered map of insertion-ordered sets
(`browsersByOsCategory`). -/
def alSetAdd (m : List (String × List String)) (k v : String) :
    List (String × List String) :=
  if m.any (fun p => p.1 == k) then
    m.map (fun p => if p.1 == k then (p.1, setAdd p.2 v) else p)
  else m ++ [(k, [v])]

structure Aggregates where
  records : List SourceRecord
  byBrowser : List (String × List SourceRecord)
  byPlatform : List (String × List SourceRecord)
  byOsCategory : List (String × List SourceRecord)
  byOsBrowser : List (String × List SourceRecord)
  browsersByOsCategory : List (String × List String)
  navigatorsByOsBrowser : List (String × List NavigatorData)
  navigatorsGlobal : List NavigatorData
  platformsByOsCategory : List (String × List String)
  languagesByBrowser : List (String × List (List String))
  languagesByPlatform : List (String × List (List String))
  languagesByCode : List (String × List (List String))
  languagesGlobal : List (List String)
  timezonesByBrowser : List (String × List TimezoneInfo)
  timezonesByPlatform : List (String × List TimezoneInfo)
  timezonesByOffset : List (ℚ × List TimezoneInfo)
  timezonesByOsCategory : List (String × List TimezoneInfo)
  timezonesGlobal : List TimezoneInfo
  hardwareConcurrencyByPlatform : List (String × List ℚ)
  hardwareConcurrencyByOsCategory : List (String × List ℚ)
  hardwareConcurrencyGlobal : List ℚ
  deviceMemoryByPlatform : List (String × List ℚ)
  deviceMemoryByOsCategory : List (String × List ℚ)
  deviceMemoryGlobal : List ℚ
  maxTouchPointsByPlatform : List (String × List ℚ)
  maxTouchPointsByOsCategory : List (String × List ℚ)
  maxTouchPointsGlobal : List ℚ
  screensByPlatform : List (String × List ScreenInfo)
  screensByOsCategory : List (String × List ScreenInfo)
  screensGlobal : List ScreenInfo
  userAgentsByBrowser : List (String × List String)
  userAgentsGlobal : List String
  doNotTrackByBrowser : List (String × List String)
  doNotTrackGlobal : List String
  webglByOsCategory : List (String × List WebglInfo)
  canvasByOsCategory : List (String × List String)
  audioByOsCategory : List (String × List AudioInfo)
  featuresByBrowser : List (String × List FeaturesInfo)
  pluginsByBrowser : List (String × List (List PluginInfo))
  mimeTypesByBrowser : List (String × List (List MimeTypeInfo))
  supportedBrowsers : List String
  supportedOsCategories : List String
deriving DecidableEq

/-- The aggregates object before the accumulation loop. -/
def initAggregates (records : List SourceRecord) : Aggregates :=
  ⟨records, [], [], [], [], [], [], [], [], [], [], [], [], [], [], [], [], [], [], [], [],
    [], [], [], [], [], [], [], [], [], [], [], [], [], [], [], [], [], [], [], [], []⟩

/-- One iteration of the aggregation loop over the corpus records. -/
def addRecord (ag : Aggregates) (record : SourceRecord) : Aggregates :=
  let fp := record.fingerprint
  let browserKey := record.browserKey
  let osCategory := record.osCategory
  let platformKey := toLowerKeyD (fp.navigator.bind (·.platform))
  let osBrowserKey := osCategory ++ "::" ++ browserKey
  let languages := ((fp.navigator.bind (·.languages)).getD []).filter (fun s => s ≠ "")
  let hw := fp.navigator.bind (·.hardwareConcurrency)
  let devMem := fp.navigator.bind (·.deviceMemory)
  let touch := fp.navigator.bind (·.maxTouchPoints)
  let dnt := fp.navigator.bind (·.doNotTrack)
  let ua := fp.navigator.bind (·.userAgent)
  let pushLanguages := fun (m : List (String × List (List String))) =>
    languages.foldl (fun acc entry =>
      alPush acc (toLowerKeyD (some (((entry.splitOn "-").headD "")))) languages) m
  { ag with
    supportedBrowsers := setAdd ag.supportedBrowsers browserKey
    supportedOsCategories := setAdd ag.supportedOsCategories osCategory
    byBrowser := alPush ag.byBrowser browserKey record
    byPlatform := alPush ag.byPlatform platformKey record
    byOsCategory := alPush ag.byOsCategory osCategory record
    byOsBrowser := alPush ag.byOsBrowser osBrowserKey record
    browsersByOsCategory := alSetAdd ag.browsersByOsCategory osCategory browserKey
    platformsByOsCategory :=
      if jsTruthyStr (fp.navigator.bind (·.platform)) then
        alPush ag.platformsByOsCategory osCategory ((fp.navigator.bind (·.platform)).getD "")
      else ag.platformsByOsCategory
    navigatorsByOsBrowser :=
      match fp.navigator with
      | some nav => alPush ag.navigatorsByOsBrowser osBrowserKey nav
      | none => ag.navigatorsByOsBrowser
    navigatorsGlobal :=
      match fp.navigator with
      | some nav => ag.navigatorsGlobal ++ [nav]
      | none => ag.navigatorsGlobal
    languagesByBrowser :=
      if languages.isEmpty then ag.languagesByBrowser
      else alPush ag.languagesByBrowser browserKey languages
    languagesByPlatform :=
      if languages.isEmpty then ag.languagesByPlatform
      else alPush ag.languagesByPlatform platformKey languages
    languagesGlobal :=
      if languages.isEmpty then ag.languagesGlobal else ag.languagesGlobal ++ [languages]
    languagesByCode :=
      if languages.isEmpty then ag.languagesByCode
      else
        let primaryCode := toLowerKeyD (some (((languages.headD "").splitOn "-").headD ""))
        pushLanguages (alPush ag.languagesByCode primaryCode languages)
    timezonesByBrowser :=
      match fp.timezone with
      | some tz =>
        if tz.offset ≠ none || jsTruthyStr tz.name then
          alPush ag.timezonesByBrowser browserKey tz
        else ag.timezonesByBrowser
      | none => ag.timezonesByBrowser
    timezonesByPlatform :=
      match fp.timezone with
      | some tz =>
        if tz.offset ≠ none || jsTruthyStr tz.name then
          alPush ag.timezonesByPlatform platformKey tz
        else ag.timezonesByPlatform
      | none => ag.timezonesByPlatform
    timezonesByOsCategory :=
      match fp.timezone with
      | some tz =>
        if tz.offset ≠ none || jsTruthyStr tz.name then
          alPush ag.timezonesByOsCategory osCategory tz
        else ag.timezonesByOsCategory
      | none => ag.timezonesByOsCategory
    timezonesGlobal :=
      match fp.timezone with
      | some tz =>
        if tz.offset ≠ none || jsTruthyStr tz.name then ag.timezonesGlobal ++ [tz]
        else ag.timezonesGlobal
      | none => ag.timezonesGlobal
    timezonesByOffset :=
      match fp.timezone with
      | some tz =>
        if tz.offset ≠ none || jsTruthyStr tz.name then
          match tz.offset with
          | some q => alPush ag.timezonesByOffset q tz
          | none => ag.timezonesByOffset
        else ag.timezonesByOffset
      | none => ag.timezonesByOffset
    hardwareConcurrencyByPlatform :=
      match hw with
      | some v => alPush ag.hardwareConcurrencyByPlatform platformKey v
      | none => ag.hardwareConcurrencyByPlatform
    hardwareConcurrencyByOsCategory :=
      match hw with
      | some v => alPush ag.hardwareConcurrencyByOsCategory osCategory v
      | none => ag.hardwareConcurrencyByOsCategory
    hardwareConcurrencyGlobal :=
      match hw with
      | some v => ag.hardwareConcurrencyGlobal ++ [v]
      | none => ag.hardwareConcurrencyGlobal
    deviceMemoryByPlatform :=
      match devMem with
      | some v => alPush ag.deviceMemoryByPlatform platformKey v
      | none => ag.deviceMemoryByPlatform
    deviceMemoryByOsCategory :=
      match devMem with
      | some v => alPush ag.deviceMemoryByOsCategory osCategory v
      | none => ag.deviceMemoryByOsCategory
    deviceMemoryGlobal :=
      match devMem with
      | some v => ag.deviceMemoryGlobal ++ [v]
      | none => ag.deviceMemoryGlobal
    maxTouchPointsByPlatform :=
      match touch with
      | some v => alPush ag.maxTouchPointsByPlatform platformKey v
      | none => ag.maxTouchPointsByPlatform
    maxTouchPointsByOsCategory :=
      match touch with
      | some v => alPush ag.maxTouchPointsByOsCategory osCategory v
      | none => ag.maxTouchPointsByOsCategory
    maxTouchPointsGlobal :=
      match touch with
      | some v => ag.maxTouchPointsGlobal ++ [v]
      | none => ag.maxTouchPointsGlobal
    screensByPlatform :=
      match fp.screen with
      | some s =>
        if s.width ≠ none && s.height ≠ none then alPush ag.screensByPlatform platformKey s
        else ag.screensByPlatform
      | none => ag.screensByPlatform
    screensByOsCategory :=
      match fp.screen with
      | some s =>
        if s.width ≠ none && s.height ≠ none then alPush ag.screensByOsCategory osCategory s
        else ag.screensByOsCategory
      | none => ag.screensByOsCategory
    screensGlobal :=
      match fp.screen with
      | some s =>
        if s.width ≠ none && s.height ≠ none then ag.screensGlobal ++ [s]
        else ag.screensGlobal
      | none => ag.screensGlobal
    userAgentsByBrowser :=
      if jsTruthyStr ua then alPush ag.userAgentsByBrowser browserKey (ua.getD "")
      else ag.userAgentsByBrowser
    userAgentsGlobal :=
      if jsTruthyStr ua then ag.userAgentsGlobal ++ [ua.getD ""] else ag.userAgentsGlobal
    doNotTrackByBrowser :=
      match dnt with
      | some d => alPush ag.doNotTrackByBrowser browserKey d
      | none => ag.doNotTrackByBrowser
    doNotTrackGlobal :=
      match dnt with
      | some d => ag.doNotTrackGlobal ++ [d]
      | none => ag.doNotTrackGlobal
    webglByOsCategory :=
      match fp.webgl with
      | some w => alPush ag.webglByOsCategory osCategory w
      | none => ag.webglByOsCategory
    canvasByOsCategory :=
      match fp.canvas with
      | some c =>
        if c ≠ "" then alPush ag.canvasByOsCategory osCategory c else ag.canvasByOsCategory
      | none => ag.canvasByOsCategory
    audioByOsCategory :=
      match fp.audio with
      | some a => alPush ag.audioByOsCategory osCategory a
      | none => ag.audioByOsCategory
    featuresByBrowser :=
      match fp.features with
      | some f => alPush ag.featuresByBrowser browserKey f
      | none => ag.featuresByBrowser
    pluginsByBrowser :=
      match fp.plugins with
      | some l => alPush ag.pluginsByBrowser browserKey l
      | none => ag.pluginsByBrowser
    mimeTypesByBrowser :=
      match fp.mimeTypes with
      | some l => alPush ag.mimeTypesByBrowser browserKey l
      | none => ag.mimeTypesByBrowser }

/-- `buildAggregates(records)`. -/
def buildAggregates (records : List SourceRecord) : Aggregates :=
  records.foldl addRecord (initAggregates records)

/-- The pure (non-IO) part of `loadSourceFingerprints`: classify each parsed
document, skipping synthetic-tagged ones unless included. -/
def loadRecords (files : List (String × Fingerprint)) (includeSynthetic : Bool) :
    List SourceRecord :=
  files.foldl (fun acc p =>
    let data := p.2
    if !includeSynthetic && (data.synthetic == some true || data.source == some "synthetic") then
      acc
    else
      acc ++ [⟨p.1, data, toLowerKeyD data.browserName, detectOsCategory data⟩]) []

/-! ### Random helpers (`randomInt`, `randomBool`, `randomSubset`,
`sampleFromArray`, `maybeReplace`, `generateRandomCanvas`) -/

/-- `randomInt(min, max, rand)` applied to its one draw. -/
def randomInt (mn mx : ℤ) (r : ℚ) : ℤ := Int.floor (r * (mx - mn + 1)) + mn

/-- `randomBool(probability, rand)` applied to its one draw. -/
def randomBool (p r : ℚ) : Bool := r < p

/-- JS `a || b` for an optional string operand. -/
def jsOrStr (a : Option String) (b : String) : String :=
  if jsTruthyStr a then a.getD "" else b

/-- JS `a || b` for an optional numeric operand (0 is falsy). -/
def jsOrNum (a : Option ℚ) (b : ℚ) : ℚ :=
  match a with
  | some q => if q = 0 then b else q
  | none => b

/-- JS truthiness of an optional boolean field. -/
def truthyFlag (o : Option Bool) : Bool := o == some true

/-- The sampling loop of `randomSubset`: repeatedly splice a random element
out of the pool.  The pool stays non-empty while the (clamped) count lasts,
so the out-of-range read of `splice` is unreachable and modelled as a skip. -/
def randomSubsetLoop {α : Type} (rand : ℕ → ℚ) :
    ℕ → List α → List α → ℕ → List α × ℕ
  | 0, _, acc, j => (acc, j)
  | n + 1, pool, acc, j =>
    let idx := (Int.floor (rand j * pool.length)).toNat
    match pool.get? idx with
    | some x => randomSubsetLoop rand n (pool.eraseIdx idx) (acc ++ [x]) (j + 1)
    | none => randomSubsetLoop rand n (pool.eraseIdx idx) acc (j + 1)

/-- `randomSubset(list, rand, {min, max})`. -/
def randomSubset {α : Type} (list : List α) (rand : ℕ → ℚ) (i : ℕ) (mn mx : ℤ) :
    List α × ℕ :=
  if list.isEmpty then ([], i)
  else
    let count := Nat.min list.length (randomInt mn mx (rand i)).toNat
    randomSubsetLoop rand count list [] (i + 1)

/-- The `defaultValue` argument of `sampleFromArray`: either a plain value or
a thunk (the source also accepts an array default, a branch no call site
uses and which is therefore not modelled). -/
inductive SFDefault (α : Type) where
  | val (a : α)
  | fn (f : Unit → α)

def sfValue {α : Type} (dv : SFDefault α) : α :=
  match dv with
  | .val a => a
  | .fn f => f ()

/-- `sampleFromArray(primary, fallback, rand, defaultValue)`. -/
def sampleFromArray {α : Type} (primary fallback : Option (List α)) (rand : ℕ → ℚ) (i : ℕ)
    (dv : SFDefault α) : α × ℕ :=
  match primary with
  | some (x :: xs) => ((pickRandom (x :: xs) (rand i)).getD x, i + 1)
  | _ =>
    match fallback with
    | some (y :: ys) => ((pickRandom (y :: ys) (rand i)).getD y, i + 1)
    | _ => (sfValue dv, i)

/-- `sampleNumeric(list, rand, fallback)`. -/
def sampleNumeric (list : Option (List ℚ)) (rand : ℕ → ℚ) (i : ℕ) (fallback : ℚ) : ℚ × ℕ :=
  match list with
  | some (x :: xs) => ((pickRandom (x :: xs) (rand i)).getD x, i + 1)
  | _ => (fallback, i)

/-- The redraw loop of `maybeReplace`: while attempts remain and the pick
serialises equal to the current value, draw again.  `JSON.stringify`
equality is modelled as structural equality. -/
def maybeReplaceLoop {α : Type} [DecidableEq α] (current : α) (candidates : List α)
    (rand : ℕ → ℚ) : ℕ → α → ℕ → α × ℕ
  | 0, next, j => (next, j)
  | attempts + 1, next, j =>
    if next = current then
      maybeReplaceLoop current candidates rand attempts
        ((pickRandom candidates (rand j)).getD next) (j + 1)
    else (next, j)

/-- `maybeReplace(current, candidates, rand, chance)`; the `cloneFn` of the
source is a structural copy and therefore the identity here. -/
def maybeReplace {α : Type} [DecidableEq α] (current : α) (candidates : List α)
    (rand : ℕ → ℚ) (i : ℕ) (chance : ℚ) : α × ℕ :=
  match candidates with
  | [] => (current, i)
  | x :: xs =>
    if chance ≤ rand i then (current, i + 1)
    else
      let next0 := (pickRandom (x :: xs) (rand (i + 1))).getD x
      maybeReplaceLoop current (x :: xs) rand (x :: xs).length next0 (i + 2)

/-- The base64 alphabet used by `Buffer.toString('base64')`. -/
def base64Chars : List Char :=
  "ABCDEFGHIJKLMNOPQRSTUVWXYZabcdefghijklmnopqrstuvwxyz0123456789+/".data

def base64Digit (n : ℕ) : Char := base64Chars.getD n 'A'

/-- Standard base64 with padding. -/
def base64Encode : List ℕ → List Char
  | [] => []
  | [b0] => [base64Digit (b0 / 4), base64Digit (b0 % 4 * 16), '=', '=']
  | [b0, b1] =>
    [base64Digit (b0 / 4), base64Digit (b0 % 4 * 16 + b1 / 16), base64Digit (b1 % 16 * 4), '=']
  | b0 :: b1 :: b2 :: rest =>
    base64Digit (b0 / 4) :: base64Digit (b0 % 4 * 16 + b1 / 16) ::
      base64Digit (b1 % 16 * 4 + b2 / 64) :: base64Digit (b2 % 64) :: base64Encode rest

/-- `generateRandomCanvas(rand)`: a random length from the PRNG stream, the
payload bytes from the `crypto.randomBytes` entropy oracle `ent`. -/
def generateRandomCanvas (rand : ℕ → ℚ) (ent : ℕ → ℕ) (i : ℕ) : String × ℕ :=
  let length := (randomInt 512 2048 (rand i)).toNat
  ("data:image/png;base64," ++
    String.mk (base64Encode ((List.range length).map (fun k => ent k % 256))), i + 1)

/-! ### Dimension samplers (`sampleLanguageSet`, `sampleTimezoneObject`,
`sampleBrowserVersion`, `sampleOsDetail`) -/

def jsToUpper (s : String) : String := s.map Char.toUpper

structure LanguageSample where
  languages : List String
  code : String
deriving DecidableEq, Inhabited

/-- `sampleLanguageSet(aggregates, distributions, rand)`. -/
def sampleLanguageSet (ag : Aggregates) (dist : Distributions) (rand : ℕ → ℚ) (i : ℕ) :
    LanguageSample × ℕ :=
  let p := sampleWeightedCategory dist.language none rand i
  match p.1 with
  | none =>
    let q := pickRandomS ag.languagesGlobal rand p.2
    match q.1 with
    | some ls => (⟨ls, "en"⟩, q.2)
    | none => (⟨["en-US", "en"], "en"⟩, q.2)
  | some entry =>
    let code := toLowerKeyD (some entry.label)
    match alGet ag.languagesByCode code with
    | some (l :: ls) =>
      (⟨(pickRandom (l :: ls) (rand p.2)).getD l, code⟩, p.2 + 1)
    | _ =>
      let lower := jsToLower code
      let upper := jsToUpper lower
      (⟨[lower ++ "-" ++ upper, lower], code⟩, p.2)

/-- `timezoneLabelToOffset(label)`: parse `UTC±HH:MM`; note the source maps
`-` to a positive minute offset and `+` to a negative one. -/
def timezoneLabelToOffset (label : String) : Option ℤ :=
  match label.data with
  | 'U' :: 'T' :: 'C' :: sgn :: h1 :: h2 :: ':' :: m1 :: m2 :: [] =>
    if (sgn = '+' || sgn = '-') && h1.isDigit && h2.isDigit && m1.isDigit && m2.isDigit then
      let hours : ℤ := (h1.toNat - 48) * 10 + (h2.toNat - 48)
      let minutes : ℤ := (m1.toNat - 48) * 10 + (m2.toNat - 48)
      let sign : ℤ := if sgn = '-' then 1 else -1
      some (sign * (hours * 60 + minutes))
    else none
  | _ => none

structure TimezoneSample where
  timezone : TimezoneInfo
  label : Option String
deriving DecidableEq, Inhabited

/-- `sampleTimezoneObject(aggregates, distributions, rand, osCategory)`. -/
def sampleTimezoneObject (ag : Aggregates) (dist : Distributions) (rand : ℕ → ℚ) (i : ℕ)
    (osCategory : String) : TimezoneSample × ℕ :=
  let p := sampleWeightedCategory dist.timezone none rand i
  match p.1 with
  | none =>
    let q := pickRandomS ((alGet ag.timezonesByOsCategory osCategory).getD []) rand p.2
    match q.1 with
    | some tz => (⟨tz, if jsTruthyStr tz.name then tz.name else none⟩, q.2)
    | none =>
      let q2 := pickRandomS ag.timezonesGlobal rand q.2
      match q2.1 with
      | some tz => (⟨tz, if jsTruthyStr tz.name then tz.name else none⟩, q2.2)
      | none => (⟨⟨some 0, some "UTC+00:00"⟩, some "UTC+00:00"⟩, q2.2)
  | some entry =>
    let label := entry.label
    match timezoneLabelToOffset label with
    | none => (⟨⟨some 0, some label⟩, some label⟩, p.2)
    | some offset =>
      match alGet ag.timezonesByOffset ((offset : ℚ)) with
      | some (t :: ts) => (⟨(pickRandom (t :: ts) (rand p.2)).getD t, some label⟩, p.2 + 1)
      | _ => (⟨⟨some ((offset : ℚ)), some label⟩, some label⟩, p.2)

/-- `sampleBrowserVersion(browserKey, distributions, rand)`. -/
def sampleBrowserVersion (browserKey : String) (dist : Distributions) (rand : ℕ → ℚ)
    (i : ℕ) : Option String × ℕ :=
  match tblGet dist.browserVersions browserKey with
  | none => (none, i)
  | some versions =>
    if versions.isEmpty then (none, i)
    else
      let p := sampleWeightedCategory versions none rand i
      match p.1 with
      | none => (none, p.2)
      | some entry => (some entry.label, p.2)

/-- `sampleOsDetail(osCategory, distributions, rand)`. -/
def sampleOsDetail (osCategory : String) (dist : Distributions) (rand : ℕ → ℚ)
    (i : ℕ) : Option String × ℕ :=
  match tblGet dist.osDetails osCategory with
  | none => (none, i)
  | some details =>
    if details.isEmpty then (none, i)
    else
      let p := sampleWeightedCategory details none rand i
      match p.1 with
      | none => (none, p.2)
      | some entry => (some entry.label, p.2)

/-! ### Version / OS-detail overlays (`replaceVersionToken`,
`applyBrowserVersion`, `applyOsDetail`)

The source uses first-match regex replacement on the user agent; the two
pattern shapes that occur (`token\/(\d+(?:\.\d+)*)` and a literal followed
by a greedy character class) are implemented directly. -/

/-- Length of the maximal leading run of characters satisfying `p`. -/
def classRun (p : Char → Bool) : List Char → ℕ
  | c :: rest => if p c then 1 + classRun p rest else 0
  | [] => 0

/-- Length of the maximal leading match of `\d+(?:\.\d+)*`, 0 when none. -/
def versionNumLen (l : List Char) : ℕ :=
  let d := classRun Char.isDigit l
  if d = 0 then 0 else d + versionNumTail (l.drop d)
where
  versionNumTail : List Char → ℕ
    | '.' :: rest =>
      let d := classRun Char.isDigit rest
      if d = 0 then 0 else 1 + d + versionNumTail (rest.drop d)
    | _ => 0
  termination_by l => l.length
  decreasing_by
    simp only [List.length_drop, List.length_cons]
    omega

/-- First match position and length of `lit` followed by a non-empty suffix
match measured by `lenFn`. -/
def findLitPat (lit : List Char) (lenFn : List Char → ℕ) : List Char → Option (ℕ × ℕ)
  | [] => none
  | l@(_ :: rest) =>
    if lit.isPrefixOf l then
      let n := lenFn (l.drop lit.length)
      if n > 0 then some (0, lit.length + n)
      else (findLitPat lit lenFn rest).map (fun q => (q.1 + 1, q.2))
    else (findLitPat lit lenFn rest).map (fun q => (q.1 + 1, q.2))

/-- First-match replacement of `lit` + pattern by `replacement`. -/
def replaceFirstPat (text : String) (lit : List Char) (lenFn : List Char → ℕ)
    (replacement : String) : String :=
  match findLitPat lit lenFn text.data with
  | some (start, len) =>
    String.mk (text.data.take start ++ replacement.data ++ text.data.drop (start + len))
  | none => text

/-- `replaceVersionToken(text, token, replacement)`. -/
def replaceVersionToken (text token replacement : String) : String :=
  if text = "" || token = "" || replacement = "" then text
  else replaceFirstPat text (token.data ++ ['/']) versionNumLen
    (token ++ "/" ++ replacement)

/-- `applyBrowserVersion` restricted to the navigator object it mutates. -/
def applyBrowserVersionNav (nav : Option NavigatorData) (browserKey : String)
    (versionLabel : Option String) : Option NavigatorData :=
  if !jsTruthyStr versionLabel then nav
  else
    match nav with
    | none => none
    | some n =>
      let userAgent := (n.userAgent).getD ""
      let appVersion := jsOrStr n.appVersion userAgent
      let major := ((versionLabel).getD "").trim
      let ua2 :=
        if browserKey = "chrome" || browserKey = "brave" || browserKey = "opera" ||
            browserKey = "edge" then
          let u := replaceVersionToken userAgent "Chrome" (major ++ ".0.0.0")
          if browserKey = "edge" then replaceVersionToken u "Edg" (major ++ ".0.0.0") else u
        else if browserKey = "firefox" then
          replaceVersionToken userAgent "Firefox" (major ++ ".0")
        else if browserKey = "safari" then
          replaceVersionToken userAgent "Version" (major ++ ".0")
        else if browserKey = "mobile safari" then
          replaceVersionToken userAgent "Version" major
        else if browserKey = "gsa" then
          replaceVersionToken userAgent "GSA" (major ++ ".0")
        else if browserKey = "samsung browser" then
          replaceVersionToken userAgent "SamsungBrowser" (major ++ ".0")
        else userAgent
      let av2 :=
        if browserKey = "chrome" || browserKey = "brave" || browserKey = "opera" ||
            browserKey = "edge" then
          replaceVersionToken appVersion "Chrome" (major ++ ".0.0.0")
        else if browserKey = "firefox" then
          replaceVersionToken appVersion "Firefox" (major ++ ".0")
        else if browserKey = "safari" then
          replaceVersionToken appVersion "Version" (major ++ ".0")
        else if browserKey = "mobile safari" then
          replaceVersionToken appVersion "Version" major
        else appVersion
      some { n with
        userAgent := some ua2
        appVersion := if jsTruthyStr n.appVersion then some av2 else n.appVersion }

/-- `applyOsDetail` restricted to the navigator object it mutates. -/
def applyOsDetailNav (nav : Option NavigatorData) (osCategory : String)
    (detailLabel : Option String) : Option NavigatorData :=
  if !jsTruthyStr detailLabel then nav
  else
    match nav with
    | none => none
    | some n =>
      let userAgent := (n.userAgent).getD ""
      let dl := (detailLabel).getD ""
      let formattedDot := dl.replace "_" "."
      let ua2 :=
        if osCategory = "android" then
          replaceFirstPat userAgent "Android ".data
            (classRun (fun c => c ≠ ';' && c ≠ ')')) ("Android " ++ formattedDot)
        else if osCategory = "ios" then
          replaceFirstPat userAgent "OS ".data
            (classRun (fun c => c.isDigit || c = '_')) ("OS " ++ dl)
        else if osCategory = "mac os" then
          replaceFirstPat userAgent "Mac OS X ".data
            (classRun (fun c => c.isDigit || c = '_')) ("Mac OS X " ++ dl)
        else if osCategory = "windows" then
          replaceFirstPat userAgent "Windows NT ".data
            (classRun (fun c => c.isDigit || c = '.')) ("Windows NT " ++ formattedDot)
        else userAgent
      some { n with userAgent := some ua2 }

/-! ### Field finalisers (`ensureNavigatorFields`, `ensureFeatureFlags`) -/

/-- `ensureNavigatorFields(navigatorData, languageSet, osCategory,
browserKey)` as a transformer on the navigator object. -/
def ensureNavigatorFieldsNav (n : NavigatorData) (languageSet : List String)
    (osCategory browserKey : String) : NavigatorData :=
  { n with
    languages := some languageSet
    language := some (jsOrStr (languageSet.head?) (jsOrStr n.language "en-US"))
    platform := some (jsOrStr n.platform
      (jsOrStr (tblGet defaultPlatforms osCategory) (jsOrStr (tblGet defaultPlatforms "others") "")))
    vendor := some (jsOrStr n.vendor (jsOrStr (tblGet browserVendor browserKey) "Google Inc."))
    cookieEnabled := some ((n.cookieEnabled).getD true)
    product := some (jsOrStr n.product "Gecko")
    productSub := some (jsOrStr n.productSub "20030107")
    webdriver := some false }

/-- `ensureFeatureFlags(fingerprint, osCategory)` as a function of the
feature map and the `webgl.supported` flag it reads. -/
def ensureFeatureFlagsF (features : Option FeaturesInfo) (webglSupported : Option Bool)
    (osCategory : String) : FeaturesInfo :=
  let f := match features with
    | some f => f
    | none => if mobileOs.contains osCategory then defaultFeaturesMobile
        else defaultFeaturesDesktop
  let w := match webglSupported with
    | some b => b
    | none => (f.webgl).getD true
  { f with webgl := some w, webgl2 := some ((f.webgl2).getD w) }

/-! ### Attribute builders of the pure synthesizer -/

/-- `aggregates.<m>.get(osCategory) || aggregates.<m>.get('others')`. -/
def getOrOthers {α : Type} (m : List (String × List α)) (k : String) : List α :=
  (match alGet m k with
    | some l => some l
    | none => alGet m "others").getD []

/-- `buildWebGL(aggregates, osCategory, rand)`. -/
def buildWebGL (ag : Aggregates) (osCategory : String) (rand : ℕ → ℚ) (i : ℕ) :
    WebglInfo × ℕ :=
  let candidates := getOrOthers ag.webglByOsCategory osCategory
  match candidates with
  | c :: cs =>
    if rand i < 3/5 then ((pickRandom (c :: cs) (rand (i + 1))).getD c, i + 2)
    else buildWebGLFallback osCategory rand (i + 1)
  | [] => buildWebGLFallback osCategory rand i
where
  buildWebGLFallback (osCategory : String) (rand : ℕ → ℚ) (i : ℕ) : WebglInfo × ℕ :=
    match tblGet webglCandidates osCategory with
    | some (f :: fs) => ((pickRandom (f :: fs) (rand i)).getD f, i + 1)
    | _ =>
      ((tblGet defaultWebgl osCategory).getD ((tblGet defaultWebgl "others").getD default), i)

/-- The candidate chain of `buildCanvas`. -/
def buildCanvasCandidates (ag : Aggregates) (osCategory : String) : List String :=
  (match alGet ag.canvasByOsCategory osCategory with
    | some l => some l
    | none =>
      match alGet ag.canvasByOsCategory "others" with
      | some l => some l
      | none =>
        match alGet ag.canvasByOsCategory "mac os" with
        | some l => some l
        | none => alGet ag.canvasByOsCategory "gnu/linux based").getD []

/-- Value component of `buildCanvas(aggregates, osCategory, rand)`.  The
value and the stream advance are split into two definitions (sharing the
same control flow) so that the advance is manifestly independent of the
entropy oracle. -/
def buildCanvasVal (ag : Aggregates) (osCategory : String) (rand : ℕ → ℚ) (ent : ℕ → ℕ)
    (i : ℕ) : String :=
  match buildCanvasCandidates ag osCategory with
  | c :: cs =>
    if rand i < 1/2 then (pickRandom (c :: cs) (rand (i + 1))).getD c
    else (generateRandomCanvas rand ent (i + 1)).1
  | [] => (generateRandomCanvas rand ent i).1

/-- Stream advance of `buildCanvas`: one draw for the corpus test when
candidates exist, then one draw for the pick or the random length. -/
def buildCanvasIdx (ag : Aggregates) (osCategory : String) (i : ℕ) : ℕ :=
  match buildCanvasCandidates ag osCategory with
  | _ :: _ => i + 2
  | [] => i + 1

def buildCanvas (ag : Aggregates) (osCategory : String) (rand : ℕ → ℚ) (ent : ℕ → ℕ)
    (i : ℕ) : String × ℕ :=
  (buildCanvasVal ag osCategory rand ent i, buildCanvasIdx ag osCategory i)

/-- `buildAudio(aggregates, osCategory, rand)`. -/
def buildAudio (ag : Aggregates) (osCategory : String) (rand : ℕ → ℚ) (i : ℕ) :
    AudioInfo × ℕ :=
  let candidates := getOrOthers ag.audioByOsCategory osCategory
  let bp : AudioInfo × ℕ :=
    match candidates with
    | c :: cs =>
      if rand i < 3/5 then ((pickRandom (c :: cs) (rand (i + 1))).getD c, i + 2)
      else (defaultAudio, i + 1)
    | [] => (defaultAudio, i)
  let base := bp.1
  let r1 := sampleFromArray none (some audioSampleRates) rand bp.2
    (.val (jsOrNum base.sampleRate 48000))
  let r2 := sampleFromArray none (some audioStates) rand r1.2
    (.val (jsOrStr base.state "running"))
  let r3 := sampleFromArray none (some [(1 : ℚ), 2, 2, 2, 6, 8]) rand r2.2
    (.val (jsOrNum base.maxChannelCount 2))
  ({ base with sampleRate := some r1.1, state := some r2.1, maxChannelCount := some r3.1 },
    r3.2)

/-- One feature-flag variation step: flip a defined flag with the given
probability (undefined flags are skipped without a draw). -/
def varyFlag (v : Option Bool) (variation : ℚ) (rand : ℕ → ℚ) (j : ℕ) : Option Bool × ℕ :=
  match v with
  | none => (none, j)
  | some b => (if rand j < variation then some (!b) else some b, j + 1)

/-- `buildFeatures(aggregates, browserKey, osCategory, rand)`: corpus or
default base, `FEATURE_VARIATION` flips in insertion order, then the
`webgl2` consistency adjustments. -/
def buildFeatures (ag : Aggregates) (browserKey osCategory : String) (rand : ℕ → ℚ)
    (i : ℕ) : FeaturesInfo × ℕ :=
  let candidates := (alGet ag.featuresByBrowser browserKey).getD []
  let bp : FeaturesInfo × ℕ :=
    match candidates with
    | c :: cs =>
      if rand i < 3/5 then ((pickRandom (c :: cs) (rand (i + 1))).getD c, i + 2)
      else (if mobileOs.contains osCategory then defaultFeaturesMobile
        else defaultFeaturesDesktop, i + 1)
    | [] =>
      (if mobileOs.contains osCategory then defaultFeaturesMobile
        else defaultFeaturesDesktop, i)
  let base := bp.1
  let p1 := varyFlag base.indexedDB (2/100) rand bp.2
  let p2 := varyFlag base.localStorage (2/100) rand p1.2
  let p3 := varyFlag base.sessionStorage (2/100) rand p2.2
  let p4 := varyFlag base.webgl (5/100) rand p3.2
  let p5 := varyFlag base.webgl2 (2/10) rand p4.2
  let p6 := varyFlag base.serviceWorker (1/10) rand p5.2
  let p7 := varyFlag base.notification (3/10) rand p6.2
  let p8 := varyFlag base.geolocation (1/10) rand p7.2
  let varied : FeaturesInfo :=
    ⟨p1.1, p2.1, p3.1, p4.1, p5.1, p6.1, p7.1, p8.1⟩
  let w2a := if !truthyFlag varied.webgl && varied.webgl2 == some true then some false
    else varied.webgl2
  if truthyFlag varied.webgl && w2a = none then
    let b := randomBool (if mobileOs.contains osCategory then 2/10 else 1/2) (rand p8.2)
    ({ varied with webgl2 := some b }, p8.2 + 1)
  else ({ varied with webgl2 := w2a }, p8.2)

/-- `buildPlugins(aggregates, browserKey, osCategory, rand)`. -/
def buildPlugins (ag : Aggregates) (browserKey osCategory : String) (rand : ℕ → ℚ)
    (i : ℕ) : List PluginInfo × ℕ :=
  if mobileOs.contains osCategory || browserKey = "mobile safari" then ([], i)
  else
    let library := pluginLibraryDefault ++
      (if osCategory = "mac os" then pluginLibraryMac else []) ++
      (if osCategory = "windows" then pluginLibraryWindows else [])
    match (alGet ag.pluginsByBrowser browserKey).getD [] with
    | c :: cs =>
      if rand i < 3/5 then ((pickRandom (c :: cs) (rand (i + 1))).getD c, i + 2)
      else randomSubset library rand (i + 1) 1 (min 4 (library.length : ℤ))
    | [] => randomSubset library rand i 1 (min 4 (library.length : ℤ))

/-- `buildMimeTypes(aggregates, browserKey, osCategory, rand)`. -/
def buildMimeTypes (ag : Aggregates) (browserKey osCategory : String) (rand : ℕ → ℚ)
    (i : ℕ) : List MimeTypeInfo × ℕ :=
  if mobileOs.contains osCategory || browserKey = "mobile safari" then ([], i)
  else
    let library := mimeTypeLibraryDefault ++ mimeTypeLibraryMedia
    match (alGet ag.mimeTypesByBrowser browserKey).getD [] with
    | c :: cs =>
      if rand i < 3/5 then ((pickRandom (c :: cs) (rand (i + 1))).getD c, i + 2)
      else randomSubset library rand (i + 1) 1 (min 5 (library.length : ℤ))
    | [] => randomSubset library rand i 1 (min 5 (library.length : ℤ))

/-- `buildScreen(aggregates, osCategory, rand)`. -/
def buildScreen (ag : Aggregates) (osCategory : String) (rand : ℕ → ℚ) (i : ℕ) :
    ScreenInfo × ℕ :=
  let presetPath := fun (j : ℕ) =>
    let pr := sampleFromArray (tblGet screenPresets osCategory)
      (tblGet screenPresets "android") rand j
      (.val ((tblGet defaultScreens osCategory).getD
        ((tblGet defaultScreens "others").getD default)))
    let preset := pr.1
    let reserved : ℤ :=
      if mobileOs.contains osCategory then randomInt 60 140 (rand pr.2)
      else randomInt 0 120 (rand pr.2)
    ({ preset with
        availWidth := preset.width
        availHeight := some (max 0 ((preset.height).getD 0 - (reserved : ℚ))) }, pr.2 + 1)
  match (alGet ag.screensByOsCategory osCategory).getD [] with
  | c :: cs =>
    if rand i < 3/5 then
      let sampled := (pickRandom (c :: cs) (rand (i + 1))).getD c
      ({ sampled with
          availWidth := (sampled.availWidth).orElse (fun _ => sampled.width)
          availHeight := (sampled.availHeight).orElse (fun _ => some (max 0
            ((sampled.height).getD 0 -
              (if mobileOs.contains osCategory then (80 : ℚ) else 40)))) }, i + 2)
    else presetPath (i + 1)
  | [] => presetPath i

/-- The sampled hardware bundle of the pure synthesizer. -/
structure HardwareSamples where
  hardwareConcurrency : ℚ
  deviceMemory : Option ℚ
  maxTouchPoints : ℚ
  doNotTrack : Option String
deriving DecidableEq, Inhabited

/-- `buildHardwareSamples(aggregates, osCategory, rand)`; corpus pools carry
plain numbers while the curated fallbacks may contain `null`, so corpus
values are injected into the nullable type. -/
def buildHardwareSamples (ag : Aggregates) (osCategory : String) (rand : ℕ → ℚ) (i : ℕ) :
    HardwareSamples × ℕ :=
  let mobile := mobileOs.contains osCategory
  let fallback := (tblGet hardwareFallbacks osCategory).getD
    ((tblGet hardwareFallbacks "others").getD default)
  let r1 := sampleFromArray
    ((alGet ag.hardwareConcurrencyByOsCategory osCategory).map (List.map some))
    (some (fallback.hardwareConcurrency.map some)) rand i
    (.fn (fun _ => some (if mobile then (8 : ℚ) else 16)))
  let r2 := sampleFromArray
    ((alGet ag.deviceMemoryByOsCategory osCategory).map (List.map some))
    (some fallback.deviceMemory) rand r1.2
    (.fn (fun _ => some (if mobile then (6 : ℚ) else 16)))
  let r3 := sampleFromArray
    ((alGet ag.maxTouchPointsByOsCategory osCategory).map (List.map some))
    (some (fallback.maxTouchPoints.map some)) rand r2.2
    (.fn (fun _ => some (if mobile then (5 : ℚ) else 0)))
  let r4 := sampleFromArray
    (some (ag.doNotTrackGlobal.map some))
    (some fallback.doNotTrack) rand r3.2
    (.val none)
  (⟨(r1.1).getD (if mobile then 8 else 16), r2.1, (r3.1).getD 0, r4.1⟩, r4.2)

/-! ### Navigator construction (`buildDefaultNavigator`,
`buildNavigatorFromTemplate`) -/

/-- `buildDefaultNavigator(osCategory, browserKey, languageSet, hardware,
rand, osDetailLabel)`. -/
def buildDefaultNavigator (osCategory browserKey : String) (languageSet : List String)
    (hardware : HardwareSamples) (rand : ℕ → ℚ) (i : ℕ) (osDetailLabel : Option String) :
    NavigatorData × ℕ :=
  let primaryLanguage := jsOrStr languageSet.head? "en-US"
  let vendor := jsOrStr (tblGet browserVendor browserKey) "Google Inc."
  let pr := sampleFromArray
    (if osCategory = "mac os" then some macPlatforms
      else if osCategory = "windows" then some windowsPlatforms
      else if osCategory = "gnu/linux based" then some linuxPlatforms
      else none)
    none rand i
    (.val (jsOrStr (tblGet defaultPlatforms osCategory)
      (jsOrStr (tblGet defaultPlatforms "others") "")))
  let platform := pr.1
  let ar : String × ℕ :=
    if jsTruthyStr osDetailLabel then (((osDetailLabel).getD "").replace "_" ".", pr.2)
    else sampleFromArray none (some ["13", "14", "12"]) rand pr.2 (.val "14")
  let androidVersion := ar.1
  let ir := sampleFromArray none (some iosDevices) rand ar.2 (.val (iosDevices.headD ""))
  let iosDevice := ir.1
  let dr := sampleFromArray none (some androidDevices) rand ir.2
    (.val (androidDevices.headD ""))
  let androidDevice := dr.1
  let macVersion := if jsTruthyStr osDetailLabel then (osDetailLabel).getD "" else "10_15_7"
  let windowsVersion :=
    if jsTruthyStr osDetailLabel then ((osDetailLabel).getD "").replace "_" "." else "10.0"
  let chromeTail := ") AppleWebKit/537.36 (KHTML, like Gecko) Chrome/120.0.0.0 Safari/537.36"
  let userAgent :=
    if browserKey = "chrome" then
      if osCategory = "android" then
        "Mozilla/5.0 (Linux; Android " ++ androidVersion ++ "; " ++ androidDevice ++
          ") AppleWebKit/537.36 (KHTML, like Gecko) Chrome/120.0.0.0 Mobile Safari/537.36"
      else if osCategory = "ios" then
        "Mozilla/5.0 (" ++ iosDevice ++
          ") AppleWebKit/605.1.15 (KHTML, like Gecko) CriOS/120.0.0.0 Mobile/15E148 Safari/604.1"
      else if osCategory = "windows" then
        "Mozilla/5.0 (Windows NT " ++ windowsVersion ++ "; Win64; x64" ++ chromeTail
      else if osCategory = "mac os" then
        "Mozilla/5.0 (Macintosh; Intel Mac OS X " ++ macVersion ++ chromeTail
      else "Mozilla/5.0 (X11; Linux x86_64" ++ chromeTail
    else if browserKey = "firefox" then
      if osCategory = "android" then
        "Mozilla/5.0 (Android " ++ androidVersion ++
          "; Mobile; rv:140.0) Gecko/20100101 Firefox/140.0"
      else if osCategory = "windows" then
        "Mozilla/5.0 (Windows NT " ++ windowsVersion ++
          "; Win64; x64; rv:140.0) Gecko/20100101 Firefox/140.0"
      else if osCategory = "mac os" then
        "Mozilla/5.0 (Macintosh; Intel Mac OS X " ++ macVersion ++
          "; rv:140.0) Gecko/20100101 Firefox/140.0"
      else "Mozilla/5.0 (X11; Linux x86_64; rv:140.0) Gecko/20100101 Firefox/140.0"
    else if browserKey = "safari" || browserKey = "webkit" then
      "Mozilla/5.0 (Macintosh; Intel Mac OS X " ++ macVersion ++
        ") AppleWebKit/605.1.15 (KHTML, like Gecko) Version/18.0 Safari/605.1.15"
    else if browserKey = "mobile safari" then
      "Mozilla/5.0 (" ++ iosDevice ++
        ") AppleWebKit/605.1.15 (KHTML, like Gecko) Version/18.0 Mobile/15E148 Safari/604.1"
    else if browserKey = "edge" then
      if osCategory = "mac os" then
        "Mozilla/5.0 (Macintosh; Intel Mac OS X " ++ macVersion ++ chromeTail ++
          " Edg/120.0.0.0"
      else
        "Mozilla/5.0 (Windows NT " ++ windowsVersion ++ "; Win64; x64" ++ chromeTail ++
          " Edg/120.0.0.0"
    else if browserKey = "brave" then
      if osCategory = "windows" then
        "Mozilla/5.0 (Windows NT " ++ windowsVersion ++ "; Win64; x64" ++ chromeTail
      else if osCategory = "mac os" then
        "Mozilla/5.0 (Macintosh; Intel Mac OS X " ++ macVersion ++ chromeTail
      else "Mozilla/5.0 (X11; Linux x86_64" ++ chromeTail
    else if browserKey = "opera" then
      "Mozilla/5.0 (" ++
        (if osCategory = "windows" then "Windows NT " ++ windowsVersion ++ "; Win64; x64"
          else "X11; Linux x86_64") ++ chromeTail ++ " OPR/120.0.0.0"
    else if browserKey = "gsa" then
      if osCategory = "android" then
        "Mozilla/5.0 (Linux; Android " ++ androidVersion ++ "; " ++ androidDevice ++
          ") AppleWebKit/537.36 (KHTML, like Gecko) GSA/123.0.0.0 Mobile Safari/537.36"
      else
        "Mozilla/5.0 (" ++ iosDevice ++
          ") AppleWebKit/605.1.15 (KHTML, like Gecko) GSA/123.0.0.0 Mobile/15E148 Safari/604.1"
    else if browserKey = "samsung browser" then
      "Mozilla/5.0 (Linux; Android " ++ androidVersion ++ "; " ++ androidDevice ++
        ") AppleWebKit/537.36 (KHTML, like Gecko) SamsungBrowser/24.0 Chrome/120.0.0.0 Mobile Safari/537.36"
    else "Mozilla/5.0 (" ++ platform ++ chromeTail
  (⟨some userAgent, some userAgent, some platform, some vendor, some primaryLanguage,
    some languageSet, some true, hardware.doNotTrack, some hardware.hardwareConcurrency,
    hardware.deviceMemory, some hardware.maxTouchPoints, some "Gecko", some "20030107",
    some false⟩, dr.2)

/-- `buildNavigatorFromTemplate(template, overrides)`.  The overrides of the
single (pure-path) call site are passed explicitly; the hardware values
come from `buildHardwareSamples` and are therefore never `undefined`, which
resolves the `!== undefined` branches statically. -/
def buildNavigatorFromTemplate (template : Option NavigatorData)
    (languageSet : List String) (osCategory browserKey : String)
    (hardware : HardwareSamples) (platform : String) (defaultNavigator : NavigatorData) :
    NavigatorData :=
  let base := defaultNavigator
  let merged := match template with
    | none => base
    | some t =>
      let withCopied := { base with
        vendor := if t.vendor ≠ none then t.vendor else base.vendor
        cookieEnabled := if t.cookieEnabled ≠ none then t.cookieEnabled else base.cookieEnabled
        product := if t.product ≠ none then t.product else base.product
        productSub := if t.productSub ≠ none then t.productSub else base.productSub
        webdriver := if t.webdriver ≠ none then t.webdriver else base.webdriver }
      let withUa :=
        if isUserAgentCompatible t.userAgent osCategory then
          { withCopied with
            userAgent := t.userAgent
            appVersion := some (jsOrStr t.appVersion ((t.userAgent).getD "")) }
        else withCopied
      if isPlatformCompatible t.platform osCategory then
        { withUa with platform := t.platform }
      else withUa
  let ua := jsOrStr merged.userAgent ((defaultNavigator.userAgent).getD "")
  { merged with
    languages := some languageSet
    language := some (jsOrStr languageSet.head? (jsOrStr merged.language "en-US"))
    platform := some (jsOrStr (some platform) (jsOrStr merged.platform
      (jsOrStr (tblGet defaultPlatforms osCategory)
        (jsOrStr (tblGet defaultPlatforms "others") ""))))
    vendor := some (jsOrStr merged.vendor
      (jsOrStr (tblGet browserVendor browserKey) "Google Inc."))
    cookieEnabled := some ((merged.cookieEnabled).getD true)
    product := some (jsOrStr merged.product "Gecko")
    productSub := some (jsOrStr merged.productSub "20030107")
    webdriver := some false
    hardwareConcurrency := some hardware.hardwareConcurrency
    deviceMemory := hardware.deviceMemory
    maxTouchPoints := some hardware.maxTouchPoints
    doNotTrack := (hardware.doNotTrack).orElse (fun _ => merged.doNotTrack)
    userAgent := some ua
    appVersion := some (jsOrStr merged.appVersion ua) }

/-! ### OS/browser resolution (`sampleOsCategory`, `sampleBrowser`) -/

/-- `sampleOsCategory(distributions, rand, mode, aggregates)`. -/
def sampleOsCategory (dist : Distributions) (rand : ℕ → ℚ) (mode : String)
    (ag : Aggregates) (i : ℕ) : String × ℕ :=
  if mode = "seeded" then
    let p := sampleWeightedCategory dist.os (some ag.supportedOsCategories) rand i
    match p.1 with
    | some e => (e.key, p.2)
    | none =>
      let q := pickRandomS ag.supportedOsCategories rand p.2
      (jsOrStr q.1 "unknown", q.2)
  else
    let p := sampleWeightedCategory dist.os none rand i
    match p.1 with
    | some e => (e.key, p.2)
    | none =>
      let q := pickRandomS dist.os rand p.2
      (jsOrStr ((q.1).map WEntry.key) "unknown", q.2)

/-- The compatibility set: browsers whose static OS set contains the given
category, in matrix order. -/
def compatibilitySetFor (osCategory : String) : List String :=
  (browserOsCompatibility.filter (fun p => p.2.contains osCategory)).map Prod.fst

/-- The allow set handed to the weighted browser sampler: the compatibility
set, intersected in seeded mode with the browsers observed under the OS
category in the corpus. -/
def browserAllowedSet (ag : Aggregates) (mode osCategory : String) : List String :=
  if mode = "seeded" then
    match alGet ag.browsersByOsCategory osCategory with
    | some byOs => byOs.filter (fun b => (compatibilitySetFor osCategory).contains b)
    | none => compatibilitySetFor osCategory
  else compatibilitySetFor osCategory

/-- `sampleBrowser(distributions, rand, osCategory, aggregates, mode)`. -/
def sampleBrowser (dist : Distributions) (rand : ℕ → ℚ) (osCategory : String)
    (ag : Aggregates) (mode : String) (i : ℕ) : String × ℕ :=
  let allowedSet := browserAllowedSet ag mode osCategory
  let lastResort := fun (j : ℕ) =>
    let r := pickRandomS dist.browser rand j
    (jsOrStr ((r.1).map WEntry.key) "unknown", r.2)
  let p := sampleWeightedCategory dist.browser (some allowedSet) rand i
  match p.1 with
  | some e => (e.key, p.2)
  | none =>
    let q := pickRandomS allowedSet rand p.2
    match q.1 with
    | some b => if b ≠ "" then (b, q.2) else lastResort q.2
    | none => lastResort q.2

/-- Membership of a (osCategory, browserKey) pair in the static matrix. -/
def inCompatibilityMatrix (osCategory browserKey : String) : Bool :=
  match tblGet browserOsCompatibility browserKey with
  | some osSet => osSet.contains osCategory
  | none => false

/-- `selectSeededPool(aggregates, osCategory, browserKey)`. -/
def selectSeededPool (ag : Aggregates) (osCategory browserKey : String) :
    List SourceRecord :=
  let poolKey := osCategory ++ "::" ++ browserKey
  match alGet ag.byOsBrowser poolKey with
  | some (p :: ps) => p :: ps
  | _ =>
    match alGet ag.byBrowser browserKey with
    | some (p :: ps) => p :: ps
    | _ => ag.records

/-- `label || null` on sampled dimension labels stored into the metadata. -/
def optOrNull (o : Option String) : Option String := if jsTruthyStr o then o else none

/-- `crypto.randomBytes(8).toString('hex')` over an entropy oracle. -/
def syntheticIdOf (ent : ℕ → ℕ) : String := bytesToHex ((List.range 8).map (fun k => ent k % 256))

/-! ### The seeded mutator (`createSeededFingerprint`) -/

/-- `createSeededFingerprint(baseRecord, aggregates, distributions, rand,
timestamp, osCategory, browserKey)`.  `ent` is the entropy oracle for the
`syntheticId` bytes.  The deep clone of the base is the identity on the
structural model.  `ensureNavigatorFields` is applied only when the clone
has a navigator (on a navigator-less clone the source would throw). -/
def createSeededFingerprint (baseRecord : SourceRecord) (ag : Aggregates)
    (dist : Distributions) (rand : ℕ → ℚ) (i : ℕ) (timestamp : String)
    (osCategory browserKey : String) (ent : ℕ → ℕ) : Fingerprint × ℕ :=
  let ls := sampleLanguageSet ag dist rand i
  let tz := sampleTimezoneObject ag dist rand ls.2 osCategory
  let bv := sampleBrowserVersion browserKey dist rand tz.2
  let od := sampleOsDetail osCategory dist rand bv.2
  let synthetic0 := baseRecord.fingerprint
  let platformKey := toLowerKeyD (synthetic0.navigator.bind (·.platform))
  let navp : Option NavigatorData × ℕ :=
    match synthetic0.navigator with
    | none => (none, od.2)
    | some nav =>
      let hwCandidates := match alGet ag.hardwareConcurrencyByPlatform platformKey with
        | some l => l
        | none => ag.hardwareConcurrencyGlobal
      let h1 := maybeReplace nav.hardwareConcurrency (hwCandidates.map some) rand od.2 (2/5)
      let memCandidates := match alGet ag.deviceMemoryByPlatform platformKey with
        | some l => l
        | none => ag.deviceMemoryGlobal
      let h2 := maybeReplace nav.deviceMemory (memCandidates.map some) rand h1.2 (7/20)
      let touchCandidates := match alGet ag.maxTouchPointsByPlatform platformKey with
        | some l => l
        | none => ag.maxTouchPointsGlobal
      let h3 := maybeReplace nav.maxTouchPoints (touchCandidates.map some) rand h2.2 (1/2)
      let dntCandidates := match alGet ag.doNotTrackByBrowser browserKey with
        | some l => l
        | none => ag.doNotTrackGlobal
      let h4 := maybeReplace nav.doNotTrack (dntCandidates.map some) rand h3.2 (1/4)
      (some { nav with
        languages := some ls.1.languages
        language := if jsTruthyStr ls.1.languages.head? then ls.1.languages.head?
          else nav.language
        hardwareConcurrency := h1.1
        deviceMemory := h2.1
        maxTouchPoints := h3.1
        doNotTrack := h4.1 }, h4.2)
  let scp : Option ScreenInfo × ℕ :=
    match synthetic0.screen with
    | none => (none, navp.2)
    | some s =>
      let screenCandidates := match alGet ag.screensByPlatform platformKey with
        | some l => l
        | none => ag.screensGlobal
      let sc := maybeReplace s screenCandidates rand navp.2 (1/2)
      (some sc.1, sc.2)
  let meta : SourceMeta :=
    { generator := some "generate-fingerprint.js"
      baseFilename := some baseRecord.filename
      seed := none
      sampledBrowser := some browserKey
      sampledOsCategory := some osCategory
      sampledOsDetail := optOrNull od.1
      sampledBrowserVersion := optOrNull bv.1
      sampledLanguageCode := optOrNull (some ls.1.code)
      sampledTimezoneLabel := optOrNull tz.1.label
      generationMode := some "seeded" }
  let navFinal := ((applyBrowserVersionNav
      (applyOsDetailNav navp.1 osCategory od.1) browserKey bv.1)).map
    (fun n => ensureNavigatorFieldsNav n ls.1.languages osCategory browserKey)
  ({ synthetic0 with
      navigator := navFinal
      timezone := some tz.1.timezone
      screen := scp.1
      synthetic := some true
      source := some "synthetic"
      capturedFrom := some "fingerprint-generator"
      generatedAt := some timestamp
      syntheticId := some (syntheticIdOf ent)
      browserName := some (jsOrStr synthetic0.browserName browserKey)
      sourceMetadata := some meta
      features := some (ensureFeatureFlagsF synthetic0.features
        (synthetic0.webgl.bind (·.supported)) osCategory) }, scp.2)

/-- The OS/browser resolution prefix of `generateSeededFingerprint`: the
sampled pair together with the next stream index. -/
def seededResolution (records : List SourceRecord) (dist : Distributions)
    (rand : ℕ → ℚ) : (String × String) × ℕ :=
  let ag := buildAggregates records
  let os := sampleOsCategory dist rand "seeded" ag 0
  let bk := sampleBrowser dist rand os.1 ag "seeded" os.2
  ((os.1, bk.1), bk.2)

/-- The base-template pick of `generateSeededFingerprint`:
`pickRandom(pool, rand) || aggregates.records[0]`. -/
def seededBasePick (records : List SourceRecord) (dist : Distributions)
    (rand : ℕ → ℚ) : SourceRecord × ℕ :=
  let ag := buildAggregates records
  let res := seededResolution records dist rand
  let pool := selectSeededPool ag (res.1).1 (res.1).2
  let bp := pickRandomS pool rand res.2
  ((bp.1).getD (ag.records.headD default), bp.2)

/-- `generateSeededFingerprint(options)` after corpus and table loading:
resolve the pair, pick the base, mutate, then stamp the seed. -/
def generateSeeded (records : List SourceRecord) (dist : Distributions) (rand : ℕ → ℚ)
    (ent : ℕ → ℕ → ℕ) (timestamp : String) (seed : Option SeedValue) : Fingerprint :=
  let ag := buildAggregates records
  let res := seededResolution records dist rand
  let bp := seededBasePick records dist rand
  let fp := (createSeededFingerprint bp.1 ag dist rand bp.2 timestamp
    (res.1).1 (res.1).2 (ent 0)).1
  { fp with sourceMetadata := (fp.sourceMetadata).map (fun m => { m with seed := seed }) }

/-! ### The pure synthesizer (`createPureFingerprint`) -/

/-- `createPureFingerprint(context, options, rand, timestamp)`.  `ent` maps
an entropy call site (0 = canvas payload, 1 = syntheticId) to its byte
stream. -/
def createPureFingerprint (ag : Aggregates) (dist : Distributions) (rand : ℕ → ℚ)
    (ent : ℕ → ℕ → ℕ) (timestamp : String) (seed : Option SeedValue) (i : ℕ) :
    Fingerprint × ℕ :=
  let os := sampleOsCategory dist rand "pure" ag i
  let osCategory := os.1
  let bk := sampleBrowser dist rand osCategory ag "pure" os.2
  let browserKey := bk.1
  let ls := sampleLanguageSet ag dist rand bk.2
  let tz := sampleTimezoneObject ag dist rand ls.2 osCategory
  let bv := sampleBrowserVersion browserKey dist rand tz.2
  let od := sampleOsDetail osCategory dist rand bv.2
  let hw := buildHardwareSamples ag osCategory rand od.2
  let pr := sampleFromArray (alGet ag.platformsByOsCategory osCategory)
    (if osCategory = "mac os" then some macPlatforms
      else if osCategory = "windows" then some windowsPlatforms
      else if osCategory = "gnu/linux based" then some linuxPlatforms
      else none)
    rand hw.2
    (.val (jsOrStr (tblGet defaultPlatforms osCategory)
      (jsOrStr (tblGet defaultPlatforms "others") "")))
  let platform := pr.1
  let nt1 := pickRandomS ((alGet ag.navigatorsByOsBrowser
    (osCategory ++ "::" ++ browserKey)).getD []) rand pr.2
  let ntp : Option NavigatorData × ℕ :=
    match nt1.1 with
    | some t => (some t, nt1.2)
    | none => pickRandomS ag.navigatorsGlobal rand nt1.2
  let dn := buildDefaultNavigator osCategory browserKey ls.1.languages hw.1 rand ntp.2 od.1
  let defaultNavigator := { dn.1 with platform := some platform }
  let navigatorData := buildNavigatorFromTemplate ntp.1 ls.1.languages osCategory
    browserKey hw.1 platform defaultNavigator
  let nav0 := ensureNavigatorFieldsNav navigatorData ls.1.languages osCategory browserKey
  let sc := buildScreen ag osCategory rand dn.2
  let wg := buildWebGL ag osCategory rand sc.2
  let cv := buildCanvas ag osCategory rand (ent 0) wg.2
  let au := buildAudio ag osCategory rand cv.2
  let pl := buildPlugins ag browserKey osCategory rand au.2
  let mt := buildMimeTypes ag browserKey osCategory rand pl.2
  let ft := buildFeatures ag browserKey osCategory rand mt.2
  let meta : SourceMeta :=
    { generator := some "generate-fingerprint.js"
      baseFilename := none
      seed := seed
      sampledBrowser := some browserKey
      sampledOsCategory := some osCategory
      sampledOsDetail := optOrNull od.1
      sampledBrowserVersion := optOrNull bv.1
      sampledLanguageCode := optOrNull (some ls.1.code)
      sampledTimezoneLabel := optOrNull tz.1.label
      generationMode := some "pure" }
  let navFinal := applyBrowserVersionNav
    (applyOsDetailNav (some nav0) osCategory od.1) browserKey bv.1
  ({ navigator := navFinal
     screen := some sc.1
     timezone := some tz.1.timezone
     webgl := some wg.1
     canvas := some cv.1
     audio := some au.1
     plugins := some pl.1
     mimeTypes := some mt.1
     features := some (ensureFeatureFlagsF (some ft.1) ((wg.1).supported) osCategory)
     browserName := some browserKey
     synthetic := some true
     source := some "synthetic"
     capturedFrom := some "fingerprint-generator"
     generatedAt := some timestamp
     syntheticId := some (syntheticIdOf (ent 1))
     sourceMetadata := some meta }, ft.2)

/-- `generatePureFingerprint(options)` after corpus and table loading. -/
def generatePure (records : List SourceRecord) (dist : Distributions) (rand : ℕ → ℚ)
    (ent : ℕ → ℕ → ℕ) (timestamp : String) (seed : Option SeedValue) : Fingerprint :=
  (createPureFingerprint (buildAggregates records) dist rand ent timestamp seed 0).1

/-! ### Consistency validator and content hash -/

/-- `validateFingerprintConsistency(fingerprint, osCategory, browserKey)`:
advisory warning strings, never blocking (the generators only log them, so
the generators above do not consume this result). -/
def validateFingerprintConsistency (fp : Fingerprint) (osCategory browserKey : String) :
    List String :=
  let nav := fp.navigator
  let ua := (nav.bind (·.userAgent)).getD ""
  let platform := toLowerKeyD (nav.bind (·.platform))
  let touch := (nav.bind (·.maxTouchPoints)).getD 0
  (if osCategory = "ios" then
    (if !(strIncludes ua "iPhone" || strIncludes ua "iPad") then
      ["iOS fingerprint without iPhone/iPad in userAgent."] else []) ++
    (if !(strIncludes platform "iphone" || strIncludes platform "ipad") then
      ["iOS fingerprint with non-iOS navigator.platform."] else []) ++
    (if touch < 1 then ["iOS fingerprint missing touch support."] else [])
  else []) ++
  (if osCategory = "android" then
    (if !strIncludes ua "Android" then
      ["Android fingerprint missing Android in userAgent."] else []) ++
    (if touch < 1 then ["Android fingerprint missing touch support."] else [])
  else []) ++
  (if osCategory = "windows" && !strIncludes ua "Windows" then
    ["Windows fingerprint missing Windows in userAgent."] else []) ++
  (if browserKey = "mobile safari" && !strIncludes ua "Mobile" then
    ["Mobile Safari fingerprint missing Mobile in userAgent."] else [])

/-- Minimal JSON string escaping (quote and backslash). -/
def jsonEscape (s : String) : String :=
  String.mk ((s.data.map (fun c =>
    if c = '"' then ['\\', '"'] else if c = '\\' then ['\\', '\\'] else [c])).flatten)

def jsonStr (s : String) : String := "\"" ++ jsonEscape s ++ "\""

/-- Decimal form of an integral JS number; non-integral rationals (which do
not occur in corpus data) are rendered as a fraction. -/
def jsonNum (q : ℚ) : String :=
  if q.den = 1 then toString q.num else toString q.num ++ "/" ++ toString q.den

def jsonField (key : String) (v : Option String) : Option String :=
  v.map (fun s => jsonStr key ++ ":" ++ s)

/-- `JSON.stringify` of a screen object (fields in record order; absent
fields omitted as `stringify` omits `undefined`). -/
def jsonScreen (s : ScreenInfo) : String :=
  "\x7b" ++ String.intercalate "," (([
    jsonField "width" ((s.width).map jsonNum),
    jsonField "height" ((s.height).map jsonNum),
    jsonField "availWidth" ((s.availWidth).map jsonNum),
    jsonField "availHeight" ((s.availHeight).map jsonNum),
    jsonField "colorDepth" ((s.colorDepth).map jsonNum),
    jsonField "pixelDepth" ((s.pixelDepth).map jsonNum)]).filterMap id) ++ "\x7d"

/-- The serialised hash basis of `computeFingerprintHash`: the fixed
projection, keys in source order, absent fields omitted. -/
def fingerprintHashBasis (fp : Fingerprint) : String :=
  "\x7b" ++ String.intercalate "," (([
    jsonField "userAgent" ((fp.navigator.bind (·.userAgent)).map jsonStr),
    jsonField "platform" ((fp.navigator.bind (·.platform)).map jsonStr),
    jsonField "gpuVendor" ((fp.webgl.bind (·.vendor)).map jsonStr),
    jsonField "gpuRenderer" ((fp.webgl.bind (·.renderer)).map jsonStr),
    jsonField "hardwareConcurrency" ((fp.navigator.bind (·.hardwareConcurrency)).map jsonNum),
    jsonField "deviceMemory" ((fp.navigator.bind (·.deviceMemory)).map jsonNum),
    jsonField "screen" ((fp.screen).map jsonScreen),
    jsonField "browserName" ((fp.browserName).map jsonStr)]).filterMap id) ++ "\x7d"

/-- `computeFingerprintHash(fingerprint)`: SHA-256 of the basis, hex,
truncated with `.slice(0, 12)`. -/
def computeFingerprintHash (fp : Fingerprint) : String :=
  String.mk ((bytesToHex (sha256 (utf8Bytes (fingerprintHashBasis fp)))).data.take 12)

/-! ### Claim C7: the content hash depends only on the fixed projection -/

/-- The fixed projection hashed by `computeFingerprintHash`, as the claim
lists it. -/
def hashProjection (fp : Fingerprint) :
    Option String × Option String × Option String × Option String ×
      Option ℚ × Option ℚ × Option ScreenInfo × Option String :=
  (fp.navigator.bind (·.userAgent), fp.navigator.bind (·.platform),
   fp.webgl.bind (·.vendor), fp.webgl.bind (·.renderer),
   fp.navigator.bind (·.hardwareConcurrency), fp.navigator.bind (·.deviceMemory),
   fp.screen, fp.browserName)

theorem hexPairs_length (l : List ℕ) :
    ((l.map (fun b => [hexDigit (b / 16 % 16), hexDigit (b % 16)])).flatten).length =
      2 * l.length := by
  induction l with
  | nil => simp
  | cons b rest ih =>
    simp [ih]
    ring

theorem sha256_length (msg : List ℕ) : (sha256 msg).length = 32 := rfl

/-- C7: `computeFingerprintHash` depends only on the fixed projection
(userAgent, platform, webgl vendor/renderer, hardwareConcurrency,
deviceMemory, screen, browserName): records agreeing on the projection hash
identically, and the hash has 12 hex characters. -/
theorem computeFingerprintHash_projection (fp1 fp2 : Fingerprint)
    (h : hashProjection fp1 = hashProjection fp2) :
    computeFingerprintHash fp1 = computeFingerprintHash fp2 ∧
    (computeFingerprintHash fp1).length = 12 := by
  constructor
  · simp only [hashProjection, Prod.mk.injEq] at h
    obtain ⟨h1, h2, h3, h4, h5, h6, h7, h8⟩ := h
    unfold computeFingerprintHash fingerprintHashBasis
    rw [h1, h2, h3, h4, h5, h6, h7, h8]
  · show (String.mk ((bytesToHex (sha256 (utf8Bytes (fingerprintHashBasis fp1)))).data.take
      12)).length = 12
    have hdata : (bytesToHex (sha256 (utf8Bytes (fingerprintHashBasis fp1)))).data =
        (((sha256 (utf8Bytes (fingerprintHashBasis fp1))).map
          (fun b => [hexDigit (b / 16 % 16), hexDigit (b % 16)])).flatten) := rfl
    show ((bytesToHex (sha256 (utf8Bytes (fingerprintHashBasis fp1)))).data.take 12).length = 12
    rw [List.length_take, hdata, hexPairs_length, sha256_length]
    norm_num

/-- Concrete records for the C7 witness: identical projections, different
canvas tokens. -/
def c7RecordA : Fingerprint :=
  ⟨none, none, none, none, some "canvas-token-a", none, none, none, none,
    some "chrome", none, none, none, none, none, none⟩

def c7RecordB : Fingerprint :=
  ⟨none, none, none, none, some "canvas-token-b", none, none, none, none,
    some "chrome", none, none, none, none, none, none⟩

/-- Witness for C7: the two records differ only in `canvas`; the projection
equality hypothesis is discharged by `rfl`. -/
theorem computeFingerprintHash_projection_witness :
    computeFingerprintHash c7RecordA = computeFingerprintHash c7RecordB ∧
    (computeFingerprintHash c7RecordA).length = 12 :=
  computeFingerprintHash_projection c7RecordA c7RecordB rfl

/-! ### Claim C2: the resolved pair and the static matrix -/

theorem pickRandom_mem {α : Type} {l : List α} {r : ℚ} {a : α}
    (h : pickRandom l r = some a) : a ∈ l := by
  unfold pickRandom at h
  by_cases he : l.isEmpty
  · rw [if_pos he] at h
    exact absurd h (by simp)
  · rw [if_neg he] at h
    exact List.get?_mem h

theorem weightedPickAux_mem (target : ℚ) (es : List WEntry) :
    ∀ cum last, weightedPickAux target es cum last = last ∨
      weightedPickAux target es cum last ∈ es := by
  induction es with
  | nil => intro cum last; left; rfl
  | cons e rest ih =>
    intro cum last
    rw [weightedPickAux]
    by_cases hc : target ≤ cum + e.weight
    · rw [if_pos hc]; right; exact List.mem_cons_self e rest
    · rw [if_neg hc]
      rcases ih (cum + e.weight) e with h | h
      · right; rw [h]; exact List.mem_cons_self e rest
      · right; exact List.mem_cons_of_mem e h

theorem weightedPick_mem {es : List WEntry} {target : ℚ} {a : WEntry}
    (h : weightedPick es target = some a) : a ∈ es := by
  cases es with
  | nil => exact absurd h (by simp [weightedPick])
  | cons e rest =>
    rw [weightedPick] at h
    injection h with h
    rcases weightedPickAux_mem target (e :: rest) 0 e with hx | hx
    · rw [← h, hx]; exact List.mem_cons_self e rest
    · rw [← h]; exact hx

theorem sampleWeighted_key_allowed {entries : List WEntry} {ks : List String}
    {rand : ℕ → ℚ} {i : ℕ} {e : WEntry} (hks : ks ≠ [])
    (h : (sampleWeightedCategory entries (some ks) rand i).1 = some e) :
    e.key ∈ ks := by
  unfold sampleWeightedCategory at h
  by_cases he : entries.isEmpty
  · rw [if_pos he] at h; exact absurd h (by simp)
  · rw [if_neg he] at h
    have hfa : filterAllowed entries (some ks) =
        entries.filter (fun x => ks.contains x.key) := by
      show (if ks.isEmpty = true then entries
        else entries.filter (fun e => ks.contains e.key)) = _
      rw [if_neg (by simpa using hks)]
    rw [hfa] at h
    by_cases hf : (entries.filter (fun x => ks.contains x.key)).isEmpty
    · rw [if_pos hf] at h; exact absurd h (by simp)
    · rw [if_neg hf] at h
      have hmem : e ∈ entries.filter (fun x => ks.contains x.key) := by
        by_cases ht : (entries.filter (fun x => ks.contains x.key)).foldl
            (fun s x => s + x.weight) 0 ≤ 0
        · rw [if_pos ht] at h
          exact pickRandom_mem h
        · rw [if_neg ht] at h
          exact weightedPick_mem h
      have := (List.mem_filter.mp hmem).2
      simpa [List.contains] using this

theorem find_key_of_mem_nodup {α : Type} (l : List (String × α)) (pr : String × α)
    (hnd : (l.map Prod.fst).Nodup) (hm : pr ∈ l) :
    l.find? (fun p => p.1 == pr.1) = some pr := by
  induction l with
  | nil => exact absurd hm (by simp)
  | cons q rest ih =>
    rcases List.mem_cons.mp hm with h | h
    · rw [← h, List.find?_cons]
      simp
    · rw [List.find?_cons]
      have hq : (q.1 == pr.1) = false := by
        have hnotin : q.1 ∉ rest.map Prod.fst := (List.nodup_cons.mp hnd).1
        have hin : pr.1 ∈ rest.map Prod.fst := List.mem_map_of_mem Prod.fst h
        simp only [beq_eq_false_iff_ne, ne_eq]
        intro hcontra
        exact hnotin (hcontra ▸ hin)
      rw [hq]
      exact ih (List.nodup_cons.mp hnd).2 h

theorem mem_compatSet_inMatrix (osCategory b : String)
    (h : b ∈ compatibilitySetFor osCategory) :
    inCompatibilityMatrix osCategory b = true := by
  unfold compatibilitySetFor at h
  obtain ⟨pr, hprmem, hprfst⟩ := List.mem_map.mp h
  have hfil := List.mem_filter.mp hprmem
  have hnd : (browserOsCompatibility.map Prod.fst).Nodup := by decide
  have hfind := find_key_of_mem_nodup browserOsCompatibility pr hnd hfil.1
  unfold inCompatibilityMatrix tblGet
  rw [hprfst] at hfind
  rw [hfind]
  simpa using hfil.2

theorem mem_compatSet_ne_nil (osCategory b : String)
    (h : b ∈ compatibilitySetFor osCategory) : b ≠ "" := by
  unfold compatibilitySetFor at h
  obtain ⟨pr, hprmem, hprfst⟩ := List.mem_map.mp h
  have h1 : pr ∈ browserOsCompatibility := (List.mem_filter.mp hprmem).1
  have : pr.1 ∈ browserOsCompatibility.map Prod.fst := List.mem_map_of_mem Prod.fst h1
  have hne : ∀ k ∈ browserOsCompatibility.map Prod.fst, k ≠ "" := by decide
  rw [← hprfst]
  exact hne pr.1 this

theorem mem_allowedSet_inMatrix (ag : Aggregates) (mode osCategory b : String)
    (h : b ∈ browserAllowedSet ag mode osCategory) :
    inCompatibilityMatrix osCategory b = true ∧ b ≠ "" := by
  unfold browserAllowedSet at h
  by_cases hm : mode = "seeded"
  · rw [if_pos hm] at h
    cases hbo : alGet ag.browsersByOsCategory osCategory with
    | some byOs =>
      rw [hbo] at h
      have hc := (List.mem_filter.mp h).2
      have : b ∈ compatibilitySetFor osCategory := by
        simpa [List.contains] using hc
      exact ⟨mem_compatSet_inMatrix _ _ this, mem_compatSet_ne_nil _ _ this⟩
    | none =>
      rw [hbo] at h
      exact ⟨mem_compatSet_inMatrix _ _ h, mem_compatSet_ne_nil _ _ h⟩
  · rw [if_neg hm] at h
    exact ⟨mem_compatSet_inMatrix _ _ h, mem_compatSet_ne_nil _ _ h⟩

/-- C2 (amended): whenever the allowed browser set computed for the OS
category — the static compatibility set, intersected in seeded mode with
the browsers observed in the corpus — is non-empty, the browser resolved by
`sampleBrowser` forms a pair with the OS category that lies in the static
compatibility matrix.  (With arbitrary weight tables the sampled OS key can
fall outside the matrix, making that set empty; the final fallback then
returns an arbitrary table browser, so the unrestricted claim fails.) -/
theorem sampleBrowser_pair_in_matrix (dist : Distributions) (ag : Aggregates)
    (rand : ℕ → ℚ) (mode osCategory : String) (i : ℕ)
    (hne : browserAllowedSet ag mode osCategory ≠ []) :
    inCompatibilityMatrix osCategory
      (sampleBrowser dist rand osCategory ag mode i).1 = true := by
  cases hswc : (sampleWeightedCategory dist.browser
      (some (browserAllowedSet ag mode osCategory)) rand i).1 with
  | some e =>
    have hres : (sampleBrowser dist rand osCategory ag mode i).1 = e.key := by
      unfold sampleBrowser
      simp only [hswc]
    rw [hres]
    exact (mem_allowedSet_inMatrix ag mode osCategory e.key
      (sampleWeighted_key_allowed hne hswc)).1
  | none =>
    obtain ⟨b, hb, hbmem⟩ := pickRandom_isSome (browserAllowedSet ag mode osCategory)
      (rand ((sampleWeightedCategory dist.browser
        (some (browserAllowedSet ag mode osCategory)) rand i).2)) hne
    obtain ⟨hmat, hbne⟩ := mem_allowedSet_inMatrix ag mode osCategory b hbmem
    have hie : (browserAllowedSet ag mode osCategory).isEmpty = false := by
      simpa [List.isEmpty_iff] using hne
    have hres : (sampleBrowser dist rand osCategory ag mode i).1 = b := by
      unfold sampleBrowser
      simp only [hswc, pickRandomS, hie, Bool.false_eq_true, if_false, hb, hbne,
        ne_eq, not_false_eq_true, if_true]
    rw [hres]
    exact hmat

/-- Witness for C2: pure mode with OS category `windows` has a non-empty
compatibility set, and the resolved pair is in the matrix. -/
theorem sampleBrowser_pair_in_matrix_witness :
    inCompatibilityMatrix "windows"
      (sampleBrowser emptyDistributions (fun _ => 0) "windows" (buildAggregates [])
        "pure" 0).1 = true :=
  sampleBrowser_pair_in_matrix emptyDistributions (buildAggregates []) (fun _ => 0)
    "pure" "windows" 0 (by decide)

/-- A minimal real corpus record (windows/chrome) for counterexample runs. -/
def c2Navigator : NavigatorData :=
  ⟨some "Mozilla/5.0 (Windows NT 10.0; Win64; x64) Chrome/120.0.0.0",
    none, some "Win32", none, none, none, none, none, none, none, none, none, none, none⟩

def c2BaseFp : Fingerprint :=
  ⟨some c2Navigator, none, none, none, none, none, none, none, none, some "chrome",
    none, none, none, none, none, none⟩

def c2Corpus : List SourceRecord := loadRecords [("real.json", c2BaseFp)] false

/-- Weight tables whose OS key (`solaris`) belongs to no browser in the
compatibility matrix. -/
def c2Dist : Distributions :=
  ⟨[⟨"Chrome", "chrome", 1⟩], [⟨"Solaris", "solaris", 1⟩], [], [], [], []⟩

def c2Output : Fingerprint :=
  generatePure c2Corpus c2Dist (fun _ => 0) (fun _ _ => 0) "2024-01-01T00:00:00.000Z" none

set_option maxRecDepth 1000000 in
/-- Counterexample to C2 as stated: with these weight tables the pure-mode
resolution records the pair (solaris, chrome), which is not a member of the
static compatibility matrix. -/
theorem c2Counterexample :
    c2Output.sourceMetadata.map SourceMeta.sampledOsCategory = some (some "solaris") ∧
    c2Output.sourceMetadata.map SourceMeta.sampledBrowser = some (some "chrome") ∧
    inCompatibilityMatrix "solaris" "chrome" = false := by
  refine ⟨?_, ?_, ?_⟩ <;> with_unfolding_all decide

/-! ### Claim C8: the hardware substitution contract of `maybeReplace` -/

theorem maybeReplaceLoop_mem {α : Type} [DecidableEq α] (current : α) (candidates : List α)
    (rand : ℕ → ℚ) (hne : candidates ≠ []) :
    ∀ (attempts : ℕ) (next : α) (j : ℕ), next ∈ candidates →
      (maybeReplaceLoop current candidates rand attempts next j).1 ∈ candidates := by
  intro attempts
  induction attempts with
  | zero => intro next j hmem; exact hmem
  | succ n ih =>
    intro next j hmem
    rw [maybeReplaceLoop]
    by_cases hc : next = current
    · rw [if_pos hc]
      apply ih
      cases hpick : pickRandom candidates (rand j) with
      | some a => exact pickRandom_mem hpick
      | none => exact hmem
    · rw [if_neg hc]
      exact hmem

/-- C8 (amended): `maybeReplace` keeps the current value when there are no
candidates or when the probability draw fails; when a replacement is made
the result is drawn from the candidate pool, and it differs from the
current value whenever no pool element equals it.  (Distinctness is only
best-effort: the redraw loop is bounded by the pool length, so with
repeated equal picks the original value can be returned even though a
different candidate exists.)  The seeded mutator invokes this with chances
0.4, 0.35, 0.5 and 0.25 for the four hardware fields. -/
theorem maybeReplace_contract (α : Type) [DecidableEq α] (current : α)
    (candidates : List α) (rand : ℕ → ℚ) (i : ℕ) (chance : ℚ) :
    (candidates = [] → maybeReplace current candidates rand i chance = (current, i)) ∧
    (candidates ≠ [] → chance ≤ rand i →
      maybeReplace current candidates rand i chance = (current, i + 1)) ∧
    (candidates ≠ [] → rand i < chance →
      (maybeReplace current candidates rand i chance).1 ∈ candidates ∧
      ((∀ c ∈ candidates, c ≠ current) →
        (maybeReplace current candidates rand i chance).1 ≠ current)) := by
  refine ⟨fun he => ?_, fun hne hge => ?_, fun hne hlt => ?_⟩
  · rw [he]; rfl
  · cases candidates with
    | nil => exact absurd rfl hne
    | cons x xs =>
      rw [maybeReplace, if_pos hge]
  · cases candidates with
    | nil => exact absurd rfl hne
    | cons x xs =>
      have hmem : (maybeReplace current (x :: xs) rand i chance).1 ∈ x :: xs := by
        rw [maybeReplace, if_neg (not_le.mpr hlt)]
        apply maybeReplaceLoop_mem current (x :: xs) rand hne
        cases hpick : pickRandom (x :: xs) (rand (i + 1)) with
        | some a => exact pickRandom_mem hpick
        | none => exact List.mem_cons_self x xs
      exact ⟨hmem, fun hall => hall _ hmem⟩

/-- Witness for C8 at concrete inputs: empty pool keeps the value, a failing
draw keeps the value, and a successful draw over an all-different pool
replaces it. -/
theorem maybeReplace_contract_witness :
    maybeReplace (5 : ℚ) [] (fun _ => 0) 0 (2/5) = (5, 0) ∧
    maybeReplace (5 : ℚ) [7] (fun _ => 1) 0 (2/5) = (5, 1) ∧
    ((maybeReplace (5 : ℚ) [7, 9] (fun _ => 0) 0 (2/5)).1 ∈ [7, 9] ∧
      (maybeReplace (5 : ℚ) [7, 9] (fun _ => 0) 0 (2/5)).1 ≠ 5) := by
  refine ⟨(maybeReplace_contract ℚ 5 [] (fun _ => 0) 0 (2/5)).1 rfl,
    (maybeReplace_contract ℚ 5 [7] (fun _ => 1) 0 (2/5)).2.1 (by decide) (by norm_num),
    ?_⟩
  have h := (maybeReplace_contract ℚ 5 [7, 9] (fun _ => 0) 0 (2/5)).2.2 (by decide)
    (by norm_num)
  refine ⟨h.1, h.2 ?_⟩
  intro c hc
  rcases List.mem_cons.mp hc with h7 | h9
  · rw [h7]; norm_num
  · rcases List.mem_cons.mp h9 with h9 | h0
    · rw [h9]; norm_num
    · exact absurd h0 (by simp)

/-- The strict no-identical-replacement reading of claim C8. -/
def c8ClaimStatement : Prop :=
  ∀ (current : ℚ) (candidates : List ℚ) (rand : ℕ → ℚ) (i : ℕ) (chance : ℚ),
    candidates ≠ [] → rand i < chance → (∃ c ∈ candidates, c ≠ current) →
    (maybeReplace current candidates rand i chance).1 ≠ current

/-- Counterexample to C8 as stated: with pool `[8, 8, 16]`, current value 8
and a draw stream that keeps hitting index 0, the bounded redraw loop
returns 8 even though 16 is an available different candidate. -/
theorem c8Counterexample : ¬ c8ClaimStatement := by
  intro h
  have happ := h 8 [8, 8, 16] (fun _ => 0) 0 (2/5) (by simp)
    (by norm_num) ⟨16, by simp, by norm_num⟩
  apply happ
  with_unfolding_all decide

/-! ### Claim C1: determinism of generation for a fixed seed -/

/-- Projection of a pure-mode record onto the fields not fed by the entropy
pool or the clock (canvas may take the `crypto.randomBytes` fallback). -/
def stripPureNondet (fp : Fingerprint) : Fingerprint :=
  { fp with canvas := none, syntheticId := none, generatedAt := none }

/-- Projection of a seeded-mode record onto the fields not fed by the
entropy pool or the clock. -/
def stripSeededNondet (fp : Fingerprint) : Fingerprint :=
  { fp with syntheticId := none, generatedAt := none }

/-- C1 (amended): with the corpus, the weight tables and the PRNG stream
(hence the seed) fixed, two pure-mode generation calls agree on every
record field except `canvas`, `syntheticId` and `generatedAt`, and two
seeded-mode calls agree on every field except `syntheticId` and
`generatedAt`, whatever the entropy pool and clock supply. -/
theorem generate_deterministic_modulo_entropy (records : List SourceRecord)
    (dist : Distributions) (rand : ℕ → ℚ) (ent1 ent2 : ℕ → ℕ → ℕ) (ts1 ts2 : String)
    (seed : Option SeedValue) :
    stripPureNondet (generatePure records dist rand ent1 ts1 seed) =
      stripPureNondet (generatePure records dist rand ent2 ts2 seed) ∧
    stripSeededNondet (generateSeeded records dist rand ent1 ts1 seed) =
      stripSeededNondet (generateSeeded records dist rand ent2 ts2 seed) :=
  ⟨rfl, rfl⟩

/-- Two seeded runs with the same corpus, tables and seed 42, differing only
in the bytes the OS entropy pool returns. -/
def c1OutputA : Fingerprint :=
  generateSeeded c2Corpus emptyDistributions (createPRNG (SeedValue.num 42))
    (fun _ _ => 0) "2024-01-01T00:00:00.000Z" (some (SeedValue.num 42))

def c1OutputB : Fingerprint :=
  generateSeeded c2Corpus emptyDistributions (createPRNG (SeedValue.num 42))
    (fun _ _ => 1) "2024-01-01T00:00:00.000Z" (some (SeedValue.num 42))

set_option maxRecDepth 1000000 in
/-- Counterexample to C1 as stated: the two records of identically seeded
generation calls differ, because `syntheticId` is drawn from
`crypto.randomBytes`, outside the seeded PRNG. -/
theorem c1Counterexample :
    c1OutputA.syntheticId = some "0000000000000000" ∧
    c1OutputB.syntheticId = some "0101010101010101" ∧
    c1OutputA ≠ c1OutputB := by
  have ha : c1OutputA.syntheticId = some "0000000000000000" := by
    with_unfolding_all decide
  have hb : c1OutputB.syntheticId = some "0101010101010101" := by
    with_unfolding_all decide
  refine ⟨ha, hb, fun h => ?_⟩
  rw [congrArg Fingerprint.syntheticId h, hb] at ha
  exact absurd (Option.some.inj ha) (by decide)

/-! ### Claim C5: `features.webgl2 ⇒ features.webgl` -/

/-- A corpus record whose feature map claims WebGL 1 and 2 while its webgl
probe reports `supported: false` — the shape that defeats
`ensureFeatureFlags`. -/
def c5BaseFp : Fingerprint :=
  ⟨some c2Navigator, none, none,
    some ⟨some false, none, none, none, none, none, none⟩,
    none, none, none, none,
    some ⟨some true, some true, some true, some true, some true, some true, some true,
      some true⟩,
    some "chrome", none, none, none, none, none, none⟩

def c5Corpus : List SourceRecord := loadRecords [("real.json", c5BaseFp)] false

def c5Output : Fingerprint :=
  generateSeeded c5Corpus emptyDistributions (fun _ => 0) (fun _ _ => 0)
    "2024-01-01T00:00:00.000Z" none

set_option maxRecDepth 1000000 in
/-- C5 failing run: `ensureFeatureFlags` overwrites `features.webgl` from
`webgl.supported = false` but keeps the pre-existing `webgl2 = true`, so the
generated record violates `features.webgl2 ⇒ features.webgl`. -/
theorem c5FailingRun :
    c5Output.features.map FeaturesInfo.webgl2 = some (some true) ∧
    c5Output.features.map FeaturesInfo.webgl = some (some false) := by
  constructor <;> with_unfolding_all decide

/-! ### Claim C6: empty plugin/mime lists on mobile -/

theorem buildPlugins_mobile (ag : Aggregates) (browserKey osCategory : String)
    (rand : ℕ → ℚ)
    (h : mobileOs.contains osCategory = true ∨ browserKey = "mobile safari") :
    ∀ j, buildPlugins ag browserKey osCategory rand j = ([], j) := by
  intro j
  unfold buildPlugins
  rcases h with h | h
  · have hm : osCategory ∈ mobileOs := by simpa using h
    simp [hm]
  · simp [h]

theorem buildMimeTypes_mobile (ag : Aggregates) (browserKey osCategory : String)
    (rand : ℕ → ℚ)
    (h : mobileOs.contains osCategory = true ∨ browserKey = "mobile safari") :
    ∀ j, buildMimeTypes ag browserKey osCategory rand j = ([], j) := by
  intro j
  unfold buildMimeTypes
  rcases h with h | h
  · have hm : osCategory ∈ mobileOs := by simpa using h
    simp [hm]
  · simp [h]

/-- C6 (amended): in pure mode a mobile sampled OS category (android/ios) or
the browser `mobile safari` forces empty `plugins` and `mimeTypes`; in
seeded mode the two lists are copied unchanged from the base template, so
the emptiness claim holds there only when the base record's lists are
empty. -/
theorem mobile_plugins_empty (ag : Aggregates) (dist : Distributions) (rand : ℕ → ℚ)
    (ent : ℕ → ℕ → ℕ) (ts : String) (seed : Option SeedValue) (i : ℕ)
    (records : List SourceRecord)
    (hmob : mobileOs.contains (sampleOsCategory dist rand "pure" ag i).1 = true ∨
      (sampleBrowser dist rand (sampleOsCategory dist rand "pure" ag i).1 ag "pure"
        (sampleOsCategory dist rand "pure" ag i).2).1 = "mobile safari") :
    ((createPureFingerprint ag dist rand ent ts seed i).1.plugins = some [] ∧
      (createPureFingerprint ag dist rand ent ts seed i).1.mimeTypes = some []) ∧
    ((generateSeeded records dist rand ent ts seed).plugins =
        (seededBasePick records dist rand).1.fingerprint.plugins ∧
      (generateSeeded records dist rand ent ts seed).mimeTypes =
        (seededBasePick records dist rand).1.fingerprint.mimeTypes) := by
  refine ⟨⟨?_, ?_⟩, rfl, rfl⟩
  · show some ((buildPlugins ag _ _ rand _).1) = some []
    rw [buildPlugins_mobile ag _ _ rand hmob]
  · show some ((buildMimeTypes ag _ _ rand _).1) = some []
    rw [buildMimeTypes_mobile ag _ _ rand hmob]

/-- Weight tables selecting the android/chrome pair in pure mode. -/
def c6Dist : Distributions :=
  ⟨[⟨"Chrome", "chrome", 1⟩], [⟨"Android", "android", 1⟩], [], [], [], []⟩

/-- Witness for C6: a pure run whose sampled OS category is android yields
empty plugin and mime lists; the mobile hypothesis is discharged by
evaluation. -/
theorem mobile_plugins_empty_witness :
    ((createPureFingerprint (buildAggregates c2Corpus) c6Dist (fun _ => 0) (fun _ _ => 0)
        "2024-01-01T00:00:00.000Z" none 0).1.plugins = some [] ∧
      (createPureFingerprint (buildAggregates c2Corpus) c6Dist (fun _ => 0) (fun _ _ => 0)
        "2024-01-01T00:00:00.000Z" none 0).1.mimeTypes = some []) ∧
    ((generateSeeded c2Corpus c6Dist (fun _ => 0) (fun _ _ => 0)
        "2024-01-01T00:00:00.000Z" none).plugins =
        (seededBasePick c2Corpus c6Dist (fun _ => 0)).1.fingerprint.plugins ∧
      (generateSeeded c2Corpus c6Dist (fun _ => 0) (fun _ _ => 0)
        "2024-01-01T00:00:00.000Z" none).mimeTypes =
        (seededBasePick c2Corpus c6Dist (fun _ => 0)).1.fingerprint.mimeTypes) :=
  mobile_plugins_empty (buildAggregates c2Corpus) c6Dist (fun _ => 0) (fun _ _ => 0)
    "2024-01-01T00:00:00.000Z" none 0 c2Corpus
    (Or.inl (by with_unfolding_all decide))

/-- An android corpus record carrying a non-empty plugin and mime list. -/
def c6Navigator : NavigatorData :=
  ⟨some "Mozilla/5.0 (Linux; Android 14; Pixel 8) AppleWebKit/537.36 Chrome/120.0.0.0",
    none, some "Linux armv81", none, none, none, none, none, none, none, none, none,
    none, none⟩

def c6BaseFp : Fingerprint :=
  ⟨some c6Navigator, none, none, none, none, none,
    some [⟨some "Evil Plugin", some "", some "evil.dll"⟩],
    some [⟨some "application/pdf", some "", some "pdf"⟩],
    none, some "chrome", none, none, none, none, none, none⟩

def c6Corpus : List SourceRecord := loadRecords [("android.json", c6BaseFp)] false

def c6Output : Fingerprint :=
  generateSeeded c6Corpus emptyDistributions (fun _ => 0) (fun _ _ => 0)
    "2024-01-01T00:00:00.000Z" none

set_option maxRecDepth 1000000 in
/-- Counterexample to C6 as stated: a seeded record with sampled OS category
android keeps the base template's non-empty plugin and mime lists. -/
theorem c6Counterexample :
    c6Output.sourceMetadata.map SourceMeta.sampledOsCategory = some (some "android") ∧
    c6Output.plugins = some [⟨some "Evil Plugin", some "", some "evil.dll"⟩] ∧
    c6Output.mimeTypes = some [⟨some "application/pdf", some "", some "pdf"⟩] := by
  refine ⟨?_, ?_, ?_⟩ <;> with_unfolding_all decide

/-! ### Claim C9: seeded mode and the untouched template fields -/

/-- C9 (amended): a seeded run copies `webgl`, `canvas`, `audio`, `plugins`
and `mimeTypes` unchanged from the base template; `features` is preserved
except for its `webgl`/`webgl2` flags, which `ensureFeatureFlags` re-derives
from the record's webgl probe.  (The navigator additionally gets missing
fields filled in and `webdriver` forced to `false`, beyond the replacements
the claim lists.) -/
theorem seeded_template_preservation (records : List SourceRecord) (dist : Distributions)
    (rand : ℕ → ℚ) (ent : ℕ → ℕ → ℕ) (ts : String) (seed : Option SeedValue) :
    (generateSeeded records dist rand ent ts seed).webgl =
      (seededBasePick records dist rand).1.fingerprint.webgl ∧
    (generateSeeded records dist rand ent ts seed).canvas =
      (seededBasePick records dist rand).1.fingerprint.canvas ∧
    (generateSeeded records dist rand ent ts seed).audio =
      (seededBasePick records dist rand).1.fingerprint.audio ∧
    (generateSeeded records dist rand ent ts seed).plugins =
      (seededBasePick records dist rand).1.fingerprint.plugins ∧
    (generateSeeded records dist rand ent ts seed).mimeTypes =
      (seededBasePick records dist rand).1.fingerprint.mimeTypes ∧
    (∀ f, (seededBasePick records dist rand).1.fingerprint.features = some f →
      ∃ g, (generateSeeded records dist rand ent ts seed).features = some g ∧
        g.indexedDB = f.indexedDB ∧ g.localStorage = f.localStorage ∧
        g.sessionStorage = f.sessionStorage ∧ g.serviceWorker = f.serviceWorker ∧
        g.notification = f.notification ∧ g.geolocation = f.geolocation) := by
  refine ⟨rfl, rfl, rfl, rfl, rfl, fun f hf => ?_⟩
  have hfeat : (generateSeeded records dist rand ent ts seed).features =
      some (ensureFeatureFlagsF ((seededBasePick records dist rand).1.fingerprint.features)
        ((seededBasePick records dist rand).1.fingerprint.webgl.bind (·.supported))
        ((seededResolution records dist rand).1.1)) := rfl
  rw [hf] at hfeat
  exact ⟨_, hfeat, rfl, rfl, rfl, rfl, rfl, rfl⟩

/-- Witness for C9 on the concrete corpus of the C5 run, whose base template
carries a feature map. -/
theorem seeded_template_preservation_witness :
    (generateSeeded c5Corpus emptyDistributions (fun _ => 0) (fun _ _ => 0)
        "2024-01-01T00:00:00.000Z" none).webgl =
      (seededBasePick c5Corpus emptyDistributions (fun _ => 0)).1.fingerprint.webgl ∧
    ∃ g, (generateSeeded c5Corpus emptyDistributions (fun _ => 0) (fun _ _ => 0)
        "2024-01-01T00:00:00.000Z" none).features = some g ∧
      g.indexedDB = some true := by
  have T := seeded_template_preservation c5Corpus emptyDistributions (fun _ => 0)
    (fun _ _ => 0) "2024-01-01T00:00:00.000Z" none
  refine ⟨T.1, ?_⟩
  obtain ⟨g, hg, h1, -, -, -, -, -⟩ := T.2.2.2.2.2
    ⟨some true, some true, some true, some true, some true, some true, some true, some true⟩
    (by with_unfolding_all decide)
  exact ⟨g, hg, by rw [h1]⟩

/-- A base template whose feature map leaves `webgl2` undefined. -/
def c9BaseFp : Fingerprint :=
  ⟨some c2Navigator, none, none, none, none, none, none, none,
    some ⟨some true, some true, some true, some true, none, some true, some true, some true⟩,
    some "chrome", none, none, none, none, none, none⟩

def c9Corpus : List SourceRecord := loadRecords [("real.json", c9BaseFp)] false

def c9Output : Fingerprint :=
  generateSeeded c9Corpus emptyDistributions (fun _ => 0) (fun _ _ => 0)
    "2024-01-01T00:00:00.000Z" none

set_option maxRecDepth 1000000 in
/-- Counterexample to C9 as stated: the output's feature map is not equal to
the base template's — `ensureFeatureFlags` materialises `webgl2`. -/
theorem c9Counterexample :
    (seededBasePick c9Corpus emptyDistributions
      (fun _ => 0)).1.fingerprint.features.map FeaturesInfo.webgl2 = some none ∧
    c9Output.features.map FeaturesInfo.webgl2 = some (some true) ∧
    c9Output.features ≠
      (seededBasePick c9Corpus emptyDistributions (fun _ => 0)).1.fingerprint.features := by
  refine ⟨?_, ?_, ?_⟩ <;> with_unfolding_all decide
